import Mathlib

/-!
Verification development for the TailorX measurement core
(`measurementEngine.ts` and `accuracyEngine.ts`).

Modelling conventions:

* A JavaScript `number` is modelled as a real number (`ℝ`): arithmetic is
  exact, IEEE-754 rounding error is not modelled.  `x / 0 = 0` holds by the
  Lean convention; the places where the JavaScript code would instead produce
  `NaN` or `Infinity` are modelled separately by the `FloatVal` type below,
  which carries the IEEE special values explicitly.
* `Math.round` rounds half toward positive infinity: `fun x => ⌊x + 1/2⌋`.
* A JS `Record<string, number>` is an insertion-ordered association list
  `List (String × ℝ)`; `rec[key]` is `lookupR`, assignment to an existing
  key is `updateR` (which preserves the position of the binding).
* The appendable `warnings: string[]` array threaded through the engine is
  modelled as a `List Warning` where `Warning` is a tagged abstraction of the
  pushed message strings (the engine never branches on message contents).
* `throw new Error(msg)` is `Except.error (JsError.thrown msg)`; a JS
  `TypeError` raised by reading a property of `undefined` is
  `Except.error JsError.typeError`.
* The two `Date.now()` reads in `calculateFromMultiAngle` are modelled as two
  explicit extra inputs `startTime endTime : ℝ`.
* `Array.prototype.sort` with the numeric comparator is modelled as a stable
  insertion sort on the value component.
-/

noncomputable section
open Classical

/-- JavaScript `Math.round`: rounds half toward positive infinity. -/
def jround (x : ℝ) : ℝ := ((⌊x + 1/2⌋ : ℤ) : ℝ)

/-- The engine's `round(value, decimals = 1)` helper, i.e.
`Math.round(value * 10) / 10` (every call site uses the default `decimals = 1`,
so the `Math.pow(10, decimals)` factor is the literal `10`). -/
def round10 (x : ℝ) : ℝ := jround (x * 10) / 10

/-- One BlazePose landmark (normalized coordinates plus visibility). -/
structure Landmark where
  x : ℝ
  y : ℝ
  z : ℝ
  visibility : ℝ
  name : String

/-- Capture angle tag (`'front' | 'side' | 'back'`). -/
inductive CaptureType where
  | front
  | side
  | back
deriving DecidableEq

/-- One photograph's landmark skeleton (`CaptureAngle`). -/
structure CaptureAngle where
  type : CaptureType
  landmarks : List Landmark
  imageWidth : ℝ
  imageHeight : ℝ
  confidence : ℝ

/-- Reference-object kind of a `CalibrationReference`. -/
inductive CalibrationType where
  | credit_card
  | a4_paper
  | known_height
  | ruler
deriving DecidableEq

/-- Name of a calibration type as it appears in `metadata.calibrationMethod`. -/
def calTypeName : CalibrationType → String
  | .credit_card => "credit_card"
  | .a4_paper => "a4_paper"
  | .known_height => "known_height"
  | .ruler => "ruler"

/-- A detected reference object (`CalibrationReference`). -/
structure CalibrationReference where
  type : CalibrationType
  pixelWidth : ℝ
  pixelHeight : ℝ
  realWidthCm : ℝ
  realHeightCm : ℝ

/-- Gender selector for the anthropometric ratio table. -/
inductive Gender where
  | male
  | female
  | other
deriving DecidableEq

/-- Tagged abstraction of the warning strings pushed by the engine:
the estimated-scale notice, the missing-side-view notice, and the
per-key statistical-outlier notice of the anthropometric corrector. -/
inductive Warning where
  | estimatedCalibration
  | missingSideView
  | statisticalOutlier (key : String)
deriving DecidableEq

/-- A JavaScript exception: an explicit `throw new Error(msg)`, or a
`TypeError` from reading a property of `undefined`. -/
inductive JsError where
  | thrown (msg : String)
  | typeError
deriving DecidableEq

/-- Metadata block of a `MeasurementResult`. -/
structure Metadata where
  anglesUsed : List CaptureType
  calibrationMethod : String
  processingTimeMs : ℝ
  engineVersion : String

/-- Output of one pipeline run (`MeasurementResult`). -/
structure MeasurementResult where
  measurements : List (String × ℝ)
  confidence : List (String × ℝ)
  overallAccuracy : ℝ
  warnings : List Warning
  metadata : Metadata

/-- Output of `ensembleAverage` (`EnsembleResult`). -/
structure EnsembleResult where
  measurements : List (String × ℝ)
  confidence : List (String × ℝ)
  scansUsed : ℕ
  outliersRemoved : ℕ

/-- Record access `rec[key]` on an association list. -/
def lookupR (l : List (String × ℝ)) (k : String) : Option ℝ :=
  (l.find? (fun p => p.1 == k)).map (fun p => p.2)

/-- Record assignment `rec[key] = v` for a key: replaces the first binding of
`k` in place, appending at the end when `k` is absent (JS object semantics). -/
def updateR : List (String × ℝ) → String → ℝ → List (String × ℝ)
  | [], k, v => [(k, v)]
  | p :: l, k, v => if p.1 == k then (k, v) :: l else p :: updateR l k v

/-- JavaScript truthiness of an optional number (`undefined` and `0` are
falsy, every other number is truthy). -/
def numTruthy (o : Option ℝ) : Bool :=
  match o with
  | none => false
  | some v => if v = 0 then false else true

/-- Per-gender anthropometric ratio table entry (`ANTHROPOMETRIC_RATIOS`). -/
structure Ratios where
  chestToHeight : ℝ
  waistToHeight : ℝ
  hipsToHeight : ℝ
  shoulderToHeight : ℝ
  neckToHeight : ℝ
  sleeveToHeight : ℝ
  inseamToHeight : ℝ
  thighToHeight : ℝ
  calfToHeight : ℝ
  armLengthToHeight : ℝ
  torsoToHeight : ℝ
  headToHeight : ℝ

/-- The `ANTHROPOMETRIC_RATIOS` constant table. -/
def ANTHROPOMETRIC_RATIOS : Gender → Ratios
  | .male =>
    ⟨0.52, 0.44, 0.53, 0.259, 0.215, 0.365, 0.45, 0.33, 0.21, 0.44, 0.3, 0.13⟩
  | .female =>
    ⟨0.51, 0.42, 0.565, 0.243, 0.195, 0.345, 0.45, 0.34, 0.21, 0.43, 0.28, 0.13⟩
  | .other =>
    ⟨0.515, 0.43, 0.548, 0.251, 0.205, 0.355, 0.45, 0.335, 0.21, 0.435, 0.29, 0.13⟩

/-- Standard deviations of the ratio table (`RATIO_STDDEV`). -/
structure StdDevs where
  chestToHeight : ℝ
  waistToHeight : ℝ
  hipsToHeight : ℝ
  shoulderToHeight : ℝ
  neckToHeight : ℝ
  sleeveToHeight : ℝ
  inseamToHeight : ℝ
  thighToHeight : ℝ
  calfToHeight : ℝ

/-- The `RATIO_STDDEV` constant table. -/
def RATIO_STDDEV : StdDevs :=
  ⟨0.04, 0.05, 0.04, 0.015, 0.015, 0.02, 0.025, 0.03, 0.02⟩

/-- One element of the `checks` array in `applyAnthropometricCorrection`:
a measurement key together with its ratio-table and stddev-table accessors. -/
structure CheckSpec where
  key : String
  ratioOf : Ratios → ℝ
  stdDevOf : StdDevs → ℝ

/-- The `checks` array of `applyAnthropometricCorrection`. -/
def checks : List CheckSpec :=
  [⟨"chest", Ratios.chestToHeight, StdDevs.chestToHeight⟩,
   ⟨"waist", Ratios.waistToHeight, StdDevs.waistToHeight⟩,
   ⟨"hips", Ratios.hipsToHeight, StdDevs.hipsToHeight⟩,
   ⟨"shoulders", Ratios.shoulderToHeight, StdDevs.shoulderToHeight⟩,
   ⟨"neck", Ratios.neckToHeight, StdDevs.neckToHeight⟩,
   ⟨"sleeve", Ratios.sleeveToHeight, StdDevs.sleeveToHeight⟩,
   ⟨"inseam", Ratios.inseamToHeight, StdDevs.inseamToHeight⟩,
   ⟨"thigh", Ratios.thighToHeight, StdDevs.thighToHeight⟩,
   ⟨"calf", Ratios.calfToHeight, StdDevs.calfToHeight⟩]

/-- The `(key, expectedRatio, stdDev)` triples the corrector iterates over,
for a given gender: the ratio table restricted to the checked keys. -/
def ratioEntries (g : Gender) : List (String × ℝ × ℝ) :=
  checks.map (fun c => (c.key, c.ratioOf (ANTHROPOMETRIC_RATIOS g), c.stdDevOf RATIO_STDDEV))

/-- `MeasurementEngine.distance2D`: Euclidean distance between two points. -/
def distance2D (p1 p2 : ℝ × ℝ) : ℝ :=
  Real.sqrt ((p2.1 - p1.1) ^ 2 + (p2.2 - p1.2) ^ 2)

/-- `MeasurementEngine.findLandmark`: lookup by name, then by index, then a
zero-visibility point centered in frame. `List.getD` returns the default
exactly when the index is out of range, matching the source's bounds check. -/
def findLandmark (landmarks : List Landmark) (name : String) (index : ℕ) : Landmark :=
  match landmarks.find? (fun l => l.name == name) with
  | some l => l
  | none => landmarks.getD index ⟨0.5, 0.5, 0, 0, name⟩

/-- `MeasurementEngine.getTopOfHead`.  When the landmark list has no `nose`
entry the source falls back to `landmarks[0]`; on an empty list that is
`undefined` and the subsequent `nose.x` read throws a `TypeError`. -/
def getTopOfHead (landmarks : List Landmark) : Except JsError (ℝ × ℝ) :=
  let fromNose := fun (nose : Landmark) =>
    let noseToShoulderDist :=
      match landmarks.find? (fun l => l.name == "left_shoulder") with
      | some ls => |ls.y - nose.y|
      | none => 0.05
    (nose.x, nose.y - noseToShoulderDist * 0.6)
  match landmarks.find? (fun l => l.name == "nose") with
  | some nose => .ok (fromNose nose)
  | none =>
    match landmarks with
    | [] => .error .typeError
    | l0 :: _ => .ok (fromNose l0)

/-- `MeasurementEngine.getBottomOfFeet`. -/
def getBottomOfFeet (landmarks : List Landmark) : ℝ × ℝ :=
  let candidates :=
    [landmarks.find? (fun l => l.name == "left_heel"),
     landmarks.find? (fun l => l.name == "right_heel"),
     landmarks.find? (fun l => l.name == "left_foot_index"),
     landmarks.find? (fun l => l.name == "right_foot_index"),
     landmarks.find? (fun l => l.name == "left_ankle"),
     landmarks.find? (fun l => l.name == "right_ankle")].filterMap id
  match candidates with
  | [] => (0.5, 0.95)
  | c :: cs =>
    (((c :: cs).map (fun l => l.x)).sum / ((c :: cs).length : ℝ),
     (cs.map (fun l => l.y)).foldl max c.y)

/-- Priority-3 branch of `computeScaleFactor`: estimate the scale from an
assumed 170 cm height, pushing the estimated-calibration warning first. -/
def estimatedScale (captures : List CaptureAngle) (warnings : List Warning) :
    Except JsError (ℝ × List Warning) :=
  let w := warnings ++ [Warning.estimatedCalibration]
  match captures.find? (fun c => c.type == CaptureType.front) with
  | some fc => do
    let headTop ← getTopOfHead fc.landmarks
    let feetBottom := getBottomOfFeet fc.landmarks
    let heightPixels := |feetBottom.2 - headTop.2| * fc.imageHeight
    .ok (170 / heightPixels, w)
  | none => .ok (1, w)

/-- `MeasurementEngine.computeScaleFactor`: reference object, then truthy
known height (with a positive-pixel-height guard that otherwise falls through
to the estimated branch), then the estimated 170 cm fallback. -/
def computeScaleFactor (captures : List CaptureAngle)
    (calibration : Option CalibrationReference) (knownHeight : Option ℝ)
    (warnings : List Warning) : Except JsError (ℝ × List Warning) :=
  match calibration with
  | some c => .ok (1 / (c.pixelWidth / c.realWidthCm), warnings)
  | none =>
    match knownHeight with
    | some h =>
      if h = 0 then estimatedScale captures warnings
      else
        match captures.find? (fun c => c.type == CaptureType.front) with
        | some fc => do
          let headTop ← getTopOfHead fc.landmarks
          let feetBottom := getBottomOfFeet fc.landmarks
          let heightPixels := |feetBottom.2 - headTop.2| * fc.imageHeight
          if 0 < heightPixels then .ok (h / heightPixels, warnings)
          else estimatedScale captures warnings
        | none => estimatedScale captures warnings
    | none => estimatedScale captures warnings

/-- Front-view width map (chest/waist/hips/neck/thigh/calf), in cm. -/
structure RegionMap where
  chest : ℝ
  waist : ℝ
  hips : ℝ
  neck : ℝ
  thigh : ℝ
  calf : ℝ

/-- Result of `calculateFrontViewMeasurements`. -/
structure FrontView where
  height : ℝ
  shoulderWidth : ℝ
  sleeveLength : ℝ
  inseam : ℝ
  frontWidths : RegionMap

/-- `MeasurementEngine.calculateFrontViewMeasurements`. -/
def calculateFrontViewMeasurements (capture : CaptureAngle) (scaleFactor : ℝ) : FrontView :=
  let lm := capture.landmarks
  let imgH := capture.imageHeight
  let imgW := capture.imageWidth
  let px := fun (l : Landmark) => (l.x * imgW, l.y * imgH)
  let leftShoulder := findLandmark lm "left_shoulder" 11
  let rightShoulder := findLandmark lm "right_shoulder" 12
  let leftHip := findLandmark lm "left_hip" 23
  let rightHip := findLandmark lm "right_hip" 24
  let leftKnee := findLandmark lm "left_knee" 25
  let rightKnee := findLandmark lm "right_knee" 26
  let leftAnkle := findLandmark lm "left_ankle" 27
  let rightAnkle := findLandmark lm "right_ankle" 28
  let leftWrist := findLandmark lm "left_wrist" 15
  let rightWrist := findLandmark lm "right_wrist" 16
  let leftElbow := findLandmark lm "left_elbow" 13
  let rightElbow := findLandmark lm "right_elbow" 14
  let nose := findLandmark lm "nose" 0
  let headTopY := nose.y - (distance2D (px nose) (px leftShoulder) * 0.6) / imgH
  let leftHeel := (lm.find? (fun l => l.name == "left_heel")).getD leftAnkle
  let rightHeel := (lm.find? (fun l => l.name == "right_heel")).getD rightAnkle
  let leftFootIndex := (lm.find? (fun l => l.name == "left_foot_index")).getD leftAnkle
  let rightFootIndex := (lm.find? (fun l => l.name == "right_foot_index")).getD rightAnkle
  let feetBottomY := max (max (max leftHeel.y rightHeel.y) leftFootIndex.y) rightFootIndex.y
  let heightPixels := (feetBottomY - headTopY) * imgH
  let height := round10 (heightPixels * scaleFactor)
  let shoulderPixels := distance2D (px leftShoulder) (px rightShoulder) * 1.05
  let shoulderWidth := round10 (shoulderPixels * scaleFactor)
  let leftSleevePixels :=
    distance2D (px leftShoulder) (px leftElbow) + distance2D (px leftElbow) (px leftWrist)
  let rightSleevePixels :=
    distance2D (px rightShoulder) (px rightElbow) + distance2D (px rightElbow) (px rightWrist)
  let sleeveLength := round10 ((leftSleevePixels + rightSleevePixels) / 2 * scaleFactor)
  let crotchY := ((leftHip.y + rightHip.y) / 2 + 0.02) * imgH
  let leftInseamPixels :=
    distance2D ((px leftHip).1, crotchY) (px leftKnee) + distance2D (px leftKnee) (px leftAnkle)
  let rightInseamPixels :=
    distance2D ((px rightHip).1, crotchY) (px rightKnee) + distance2D (px rightKnee) (px rightAnkle)
  let inseam := round10 ((leftInseamPixels + rightInseamPixels) / 2 * scaleFactor)
  let chestFrontWidth := distance2D (px leftShoulder) (px rightShoulder) * 0.95
  let waistFrontWidth := distance2D (px leftHip) (px rightHip) * 1.1
  let hipFrontWidth := distance2D (px leftHip) (px rightHip) * 1.15
  let thighFrontWidth :=
    distance2D ((px leftHip).1, ((px leftHip).2 + (px leftKnee).2) / 2)
      ((px rightHip).1, ((px rightHip).2 + (px rightKnee).2) / 2) * 0.45
  let calfFrontWidth :=
    distance2D ((px leftKnee).1, ((px leftKnee).2 + (px leftAnkle).2) / 2)
      ((px rightKnee).1, ((px rightKnee).2 + (px rightAnkle).2) / 2) * 0.45
  let neckFrontWidth := distance2D (px leftShoulder) (px rightShoulder) * 0.22
  { height := height
    shoulderWidth := shoulderWidth
    sleeveLength := sleeveLength
    inseam := inseam
    frontWidths :=
      { chest := chestFrontWidth * scaleFactor
        waist := waistFrontWidth * scaleFactor
        hips := hipFrontWidth * scaleFactor
        neck := neckFrontWidth * scaleFactor
        thigh := thighFrontWidth * scaleFactor
        calf := calfFrontWidth * scaleFactor } }

/-- Result of `calculateSideViewMeasurements`. -/
structure SideView where
  sideDepths : RegionMap

/-- `MeasurementEngine.calculateSideViewMeasurements`. -/
def calculateSideViewMeasurements (capture : CaptureAngle) (scaleFactor : ℝ) : SideView :=
  let lm := capture.landmarks
  let imgH := capture.imageHeight
  let imgW := capture.imageWidth
  let px := fun (l : Landmark) => (l.x * imgW, l.y * imgH)
  let leftShoulder := findLandmark lm "left_shoulder" 11
  let rightShoulder := findLandmark lm "right_shoulder" 12
  let leftHip := findLandmark lm "left_hip" 23
  let rightHip := findLandmark lm "right_hip" 24
  let leftKnee := findLandmark lm "left_knee" 25
  let rightKnee := findLandmark lm "right_knee" 26
  let chestDepth := distance2D (px leftShoulder) (px rightShoulder)
  let waistDepth := distance2D (px leftHip) (px rightHip)
  let hipDepth := waistDepth * 1.15
  let thighDepth :=
    distance2D ((px leftHip).1, ((px leftHip).2 + (px leftKnee).2) / 2)
      ((px rightHip).1, ((px rightHip).2 + (px rightKnee).2) / 2)
  { sideDepths :=
      { chest := chestDepth * scaleFactor
        waist := waistDepth * scaleFactor
        hips := hipDepth * scaleFactor
        thigh := thighDepth * scaleFactor
        calf := thighDepth * scaleFactor * 0.55
        neck := chestDepth * scaleFactor * 0.3 } }

/-- `MeasurementEngine.ellipseCircumference`: Ramanujan's approximation
`π (a+b) (1 + 3h / (10 + √(4 − 3h)))` with `h = (a−b)² / (a+b)²`, rounded to
one decimal. -/
def ellipseCircumference (a b : ℝ) : ℝ :=
  let h := ((a - b) * (a - b)) / ((a + b) * (a + b))
  round10 (Real.pi * (a + b) * (1 + (3 * h) / (10 + Real.sqrt (4 - 3 * h))))

/-- `MeasurementEngine.calculateCircumferences`: ellipse model when a side
view is available, population-ratio fallback (with a warning) otherwise. -/
def calculateCircumferences (front : FrontView) (side : Option SideView)
    (gender : Gender) (warnings : List Warning) : List (String × ℝ) × List Warning :=
  match side with
  | some s =>
    let fw := front.frontWidths
    let d := s.sideDepths
    ([("chest", ellipseCircumference (fw.chest / 2) (d.chest / 2)),
      ("waist", ellipseCircumference (fw.waist / 2) (d.waist / 2)),
      ("hips", ellipseCircumference (fw.hips / 2) (d.hips / 2)),
      ("neck", ellipseCircumference (fw.neck / 2) (d.neck / 2)),
      ("thigh", ellipseCircumference (fw.thigh / 2) (d.thigh / 2)),
      ("calf", ellipseCircumference (fw.calf / 2) (d.calf / 2))], warnings)
  | none =>
    let ratios := ANTHROPOMETRIC_RATIOS gender
    let height := front.height
    ([("chest", round10 (height * ratios.chestToHeight)),
      ("waist", round10 (height * ratios.waistToHeight)),
      ("hips", round10 (height * ratios.hipsToHeight)),
      ("neck", round10 (height * ratios.neckToHeight)),
      ("thigh", round10 (height * ratios.thighToHeight)),
      ("calf", round10 (height * ratios.calfToHeight))],
     warnings ++ [Warning.missingSideView])

/-- One iteration of the `checks` loop of `applyAnthropometricCorrection`. -/
def correctionStep (gender : Gender) (height : ℝ)
    (acc : List (String × ℝ) × List Warning) (check : CheckSpec) :
    List (String × ℝ) × List Warning :=
  match lookupR acc.1 check.key with
  | none => acc
  | some measured =>
    if measured ≤ 0 then acc
    else
      let expectedRatio := check.ratioOf (ANTHROPOMETRIC_RATIOS gender)
      let expected := height * expectedRatio
      let actualRatio := measured / height
      let stdDev := check.stdDevOf RATIO_STDDEV
      let zScore := |actualRatio - expectedRatio| / stdDev
      if 3 < zScore then
        (updateR acc.1 check.key (round10 (measured * 0.4 + expected * 0.6)),
         acc.2 ++ [Warning.statisticalOutlier check.key])
      else if 2 < zScore then
        (updateR acc.1 check.key (round10 (measured * 0.8 + expected * 0.2)), acc.2)
      else acc

/-- `MeasurementEngine.applyAnthropometricCorrection`.  `!height` is falsy for
`0`, so the early return fires exactly when the height entry is absent or
`≤ 0`; the loop skips keys that are absent or `≤ 0`. -/
def applyAnthropometricCorrection (measurements : List (String × ℝ))
    (gender : Gender) (warnings : List Warning) : List (String × ℝ) × List Warning :=
  match lookupR measurements "height" with
  | none => (measurements, warnings)
  | some height =>
    if height ≤ 0 then (measurements, warnings)
    else checks.foldl (correctionStep gender height) (measurements, warnings)

/-- `MeasurementEngine.getBaseConfidence`. -/
def getBaseConfidence (captures : List CaptureAngle) : ℝ :=
  if captures.isEmpty then 50
  else
    jround ((captures.map (fun c => c.confidence)).sum / (captures.length : ℝ) * 100 * 0.7)

/-- `MeasurementEngine.calculateConfidenceScores`.  The `measurements` and
`gender` parameters are accepted but never read, exactly as in the source. -/
def calculateConfidenceScores (captures : List CaptureAngle)
    (measurements : List (String × ℝ)) (gender : Gender)
    (hasSideView : Bool) (hasCalibration : Bool) : List (String × ℝ) :=
  let baseConfidence := getBaseConfidence captures
  let calibrationBonus : ℝ := if hasCalibration then 10 else 0
  let sideViewBonus : ℝ := if hasSideView then 15 else 0
  [("height", min 98 (baseConfidence + calibrationBonus + 5)),
   ("shoulders", min 95 (baseConfidence + calibrationBonus)),
   ("sleeve", min 92 (baseConfidence + calibrationBonus - 3)),
   ("inseam", min 90 (baseConfidence + calibrationBonus - 5)),
   ("chest", min 95 (baseConfidence + calibrationBonus + sideViewBonus - 5)),
   ("waist", min 95 (baseConfidence + calibrationBonus + sideViewBonus - 5)),
   ("hips", min 95 (baseConfidence + calibrationBonus + sideViewBonus - 5)),
   ("neck", min 90 (baseConfidence + calibrationBonus + sideViewBonus - 8)),
   ("thigh", min 88 (baseConfidence + calibrationBonus + sideViewBonus - 10)),
   ("calf", min 85 (baseConfidence + calibrationBonus + sideViewBonus - 12))]

/-- `MeasurementEngine.calculateOverallAccuracy`: confidence-squared weighted
mean plus a capped extra-angle bonus, capped at 98.  There is no lower clamp. -/
def calculateOverallAccuracy (confidence : List (String × ℝ))
    (captures : List CaptureAngle) : ℝ :=
  let values := confidence.map (fun p => p.2)
  if values.isEmpty then 0
  else
    let weightedSum := (values.map (fun c => c * c)).sum
    let weightSum := values.sum
    let weightedAvg := weightedSum / weightSum
    let angleBonus := min 5 (((captures.length : ℝ) - 1) * 3)
    min 98 (jround (weightedAvg + angleBonus))

/-- The `metadata.calibrationMethod` string: `reference_object:<type>`,
`known_height` (only for a truthy known height), else `estimated`. -/
def calibrationMethodOf (calibration : Option CalibrationReference)
    (knownHeight : Option ℝ) : String :=
  match calibration with
  | some c => "reference_object:" ++ calTypeName c.type
  | none => if numTruthy knownHeight then "known_height" else "estimated"

/-- `MeasurementEngine.calculateFromMultiAngle`, the pipeline entry point.
`startTime`/`endTime` model the two `Date.now()` reads; the scale factor is
computed before the front-capture check, as in the source. -/
def calculateFromMultiAngle (captures : List CaptureAngle)
    (calibration : Option CalibrationReference) (knownHeight : Option ℝ)
    (gender : Gender) (startTime endTime : ℝ) : Except JsError MeasurementResult := do
  let sf ← computeScaleFactor captures calibration knownHeight []
  let scaleFactor := sf.1
  let warnings1 := sf.2
  match captures.find? (fun c => c.type == CaptureType.front) with
  | none => .error (.thrown "Front-view capture is required")
  | some frontCapture =>
    let sideCapture := captures.find? (fun c => c.type == CaptureType.side)
    let frontMeasurements := calculateFrontViewMeasurements frontCapture scaleFactor
    let sideMeasurements := sideCapture.map (fun c => calculateSideViewMeasurements c scaleFactor)
    let circ := calculateCircumferences frontMeasurements sideMeasurements gender warnings1
    let rawMeasurements :=
      [("height", frontMeasurements.height),
       ("shoulders", frontMeasurements.shoulderWidth),
       ("sleeve", frontMeasurements.sleeveLength),
       ("inseam", frontMeasurements.inseam)] ++ circ.1
    let corr := applyAnthropometricCorrection rawMeasurements gender circ.2
    let hasCalibration := calibration.isSome || numTruthy knownHeight
    let confidence :=
      calculateConfidenceScores captures corr.1 gender sideCapture.isSome hasCalibration
    let overallAccuracy := calculateOverallAccuracy confidence captures
    .ok
      { measurements := corr.1
        confidence := confidence
        overallAccuracy := overallAccuracy
        warnings := corr.2
        metadata :=
          { anglesUsed := captures.map (fun c => c.type)
            calibrationMethod := calibrationMethodOf calibration knownHeight
            processingTimeMs := endTime - startTime
            engineVersion := "2.0.0-production" } }

/-- A `MeasurementResult` with its `metadata.processingTimeMs` zeroed: the
projection of a result onto everything except the wall-clock duration. -/
def stripTime (r : MeasurementResult) : MeasurementResult :=
  { r with metadata := { r.metadata with processingTimeMs := 0 } }

/-- Confidence of one result for one key in `ensembleAverage`:
`r.confidence[key] || 50`, where `||` replaces both a missing and a zero
confidence by 50. -/
def confOf (r : MeasurementResult) (k : String) : ℝ :=
  match lookupR r.confidence k with
  | none => 50
  | some c => if c = 0 then 50 else c

/-- The per-key value collection of `ensembleAverage`: values across results
together with their confidences, keeping only present, positive values. -/
def keyValues (results : List MeasurementResult) (k : String) : List (ℝ × ℝ) :=
  results.filterMap (fun r =>
    match lookupR r.measurements k with
    | none => none
    | some v => if 0 < v then some (v, confOf r k) else none)

/-- Ordered insertion of a `(value, confidence)` pair by value. -/
def insertV (e : ℝ × ℝ) : List (ℝ × ℝ) → List (ℝ × ℝ)
  | [] => [e]
  | f :: l => if e.1 ≤ f.1 then e :: f :: l else f :: insertV e l

/-- Stable sort by value, modelling `[...values].sort((a, b) => a.value - b.value)`. -/
def sortV (l : List (ℝ × ℝ)) : List (ℝ × ℝ) := l.foldr insertV []

/-- The IQR filter of `ensembleAverage`: keep the entries whose value lies in
`[lowerBound, upperBound]`. -/
def filterInRange (lb ub : ℝ) : List (ℝ × ℝ) → List (ℝ × ℝ)
  | [] => []
  | v :: l =>
    if lb ≤ v.1 ∧ v.1 ≤ ub then v :: filterInRange lb ub l else filterInRange lb ub l

/-- The per-key body of the `ensembleAverage` loop: IQR outlier removal
(quartiles at indices `⌊n/4⌋` and `⌊3n/4⌋` of the sorted values), then the
confidence-weighted mean rounded to one decimal, the `min(15, √n·5)`-boosted
confidence, and the number of removed outliers.  `none` when the key has no
positive value in any result (the loop's `continue`). -/
def ensembleForKey (results : List MeasurementResult) (k : String) :
    Option (ℝ × ℝ × ℕ) :=
  let values := keyValues results k
  if values.isEmpty then none
  else
    let sorted := sortV values
    let n := sorted.length
    let q1 := (sorted.getD (n / 4) (0, 0)).1
    let q3 := (sorted.getD (3 * n / 4) (0, 0)).1
    let iqr := q3 - q1
    let lowerBound := q1 - 1.5 * iqr
    let upperBound := q3 + 1.5 * iqr
    let filtered := filterInRange lowerBound upperBound values
    let totalWeight := (filtered.map (fun v => v.2)).sum
    let weightedSum := (filtered.map (fun v => v.1 * v.2)).sum
    let measurement := jround (weightedSum / totalWeight * 10) / 10
    let avgConf := (filtered.map (fun v => v.2)).sum / (filtered.length : ℝ)
    let nBonus := min 15 (Real.sqrt (filtered.length : ℝ) * 5)
    let conf := min 98 (jround (avgConf + nBonus))
    some (measurement, conf, values.length - filtered.length)

/-- One iteration of the key loop of `ensembleAverage`, extending the three
accumulated outputs (ensemble measurements, ensemble confidences, total
outliers removed). -/
def ensembleStep (results : List MeasurementResult)
    (acc : List (String × ℝ) × List (String × ℝ) × ℕ) (k : String) :
    List (String × ℝ) × List (String × ℝ) × ℕ :=
  match ensembleForKey results k with
  | none => acc
  | some t => (acc.1 ++ [(k, t.1)], acc.2.1 ++ [(k, t.2.1)], acc.2.2 + t.2.2)

/-- `AccuracyEngine.ensembleAverage`: throws on an empty input, passes a
single result through unchanged, and otherwise loops over the keys of the
first result's measurements. -/
def ensembleAverage (results : List MeasurementResult) : Except JsError EnsembleResult :=
  match results with
  | [] => .error (.thrown "No results to ensemble")
  | [r] => .ok ⟨r.measurements, r.confidence, 1, 0⟩
  | r0 :: r1 :: rest =>
    let allKeys := r0.measurements.map (fun p => p.1)
    let acc := allKeys.foldl (ensembleStep (r0 :: r1 :: rest)) ([], [], 0)
    .ok ⟨acc.1, acc.2.1, (r0 :: r1 :: rest).length, acc.2.2⟩

/-- An IEEE-754 double restricted to what the degenerate-geometry claims
need: a finite value (held exactly, as a real), the two infinities, and NaN.
Finite arithmetic is exact; the special values follow IEEE-754 semantics. -/
inductive FloatVal where
  | fin (q : ℝ)
  | inf
  | ninf
  | nan

/-- IEEE addition on `FloatVal`. -/
def fadd : FloatVal → FloatVal → FloatVal
  | .fin a, .fin b => .fin (a + b)
  | .fin _, .inf => .inf
  | .fin _, .ninf => .ninf
  | .inf, .fin _ => .inf
  | .ninf, .fin _ => .ninf
  | .inf, .inf => .inf
  | .ninf, .ninf => .ninf
  | .inf, .ninf => .nan
  | .ninf, .inf => .nan
  | _, _ => .nan

/-- IEEE subtraction on `FloatVal`. -/
def fsub : FloatVal → FloatVal → FloatVal
  | .fin a, .fin b => .fin (a - b)
  | .fin _, .inf => .ninf
  | .fin _, .ninf => .inf
  | .inf, .fin _ => .inf
  | .ninf, .fin _ => .ninf
  | .inf, .ninf => .inf
  | .ninf, .inf => .ninf
  | .inf, .inf => .nan
  | .ninf, .ninf => .nan
  | _, _ => .nan

/-- IEEE multiplication on `FloatVal` (`0 × ∞ = NaN`). -/
def fmul : FloatVal → FloatVal → FloatVal
  | .fin a, .fin b => .fin (a * b)
  | .fin a, .inf => if a = 0 then .nan else if 0 < a then .inf else .ninf
  | .fin a, .ninf => if a = 0 then .nan else if 0 < a then .ninf else .inf
  | .inf, .fin b => if b = 0 then .nan else if 0 < b then .inf else .ninf
  | .ninf, .fin b => if b = 0 then .nan else if 0 < b then .ninf else .inf
  | .inf, .inf => .inf
  | .ninf, .ninf => .inf
  | .inf, .ninf => .ninf
  | .ninf, .inf => .ninf
  | _, _ => .nan

/-- IEEE division on `FloatVal` (`0 / 0 = NaN`, `x / 0 = ±∞` for `x ≠ 0`;
signed zeros are not distinguished). -/
def fdiv : FloatVal → FloatVal → FloatVal
  | .fin a, .fin b =>
    if b = 0 then (if a = 0 then .nan else if 0 < a then .inf else .ninf)
    else .fin (a / b)
  | .fin _, .inf => .fin 0
  | .fin _, .ninf => .fin 0
  | .inf, .fin b => if 0 ≤ b then .inf else .ninf
  | .ninf, .fin b => if 0 ≤ b then .ninf else .inf
  | _, _ => .nan

/-- IEEE `Math.sqrt` on `FloatVal` (negative arguments give NaN). -/
def fsqrt : FloatVal → FloatVal
  | .fin a => if a < 0 then .nan else .fin (Real.sqrt a)
  | .inf => .inf
  | _ => .nan

/-- IEEE `Math.round(x * 10) / 10`, i.e. the engine's one-decimal rounding,
on `FloatVal`. -/
def fround10 : FloatVal → FloatVal
  | .fin a => .fin (round10 a)
  | .inf => .inf
  | .ninf => .ninf
  | .nan => .nan

/-- `MeasurementEngine.distance2D` under IEEE semantics: points are pairs of
`FloatVal` coordinates. -/
def distance2DF (p1 p2 : FloatVal × FloatVal) : FloatVal :=
  fsqrt (fadd (fmul (fsub p2.1 p1.1) (fsub p2.1 p1.1))
              (fmul (fsub p2.2 p1.2) (fsub p2.2 p1.2)))

/-- `MeasurementEngine.ellipseCircumference` under IEEE semantics: the exact
expression tree of the source, where `h = ((a−b)·(a−b)) / ((a+b)·(a+b))` is an
unguarded division. -/
def ellipseCircumferenceF (a b : FloatVal) : FloatVal :=
  let h := fdiv (fmul (fsub a b) (fsub a b)) (fmul (fadd a b) (fadd a b))
  fround10 (fmul (fmul (.fin Real.pi) (fadd a b))
    (fadd (.fin 1) (fdiv (fmul (.fin 3) h)
      (fadd (.fin 10) (fsqrt (fsub (.fin 4) (fmul (.fin 3) h)))))))

/-- A minimal single-key `MeasurementResult`, used to build concrete inputs
for the ensemble-averaging theorems. -/
def mkResult (k : String) (v c : ℝ) : MeasurementResult :=
  { measurements := [(k, v)]
    confidence := [(k, c)]
    overallAccuracy := 0
    warnings := []
    metadata :=
      { anglesUsed := []
        calibrationMethod := ""
        processingTimeMs := 0
        engineVersion := "" } }

/-- A landmark named `nose` at the frame center with full visibility. -/
def noseLm : Landmark := ⟨0.5, 0.5, 0, 1, "nose"⟩

/-- A front capture with the 33 landmarks required by the data model (all
equal to `noseLm`) and a given detection confidence. -/
def frontCapture33 (conf : ℝ) : CaptureAngle :=
  ⟨.front, List.replicate 33 noseLm, 1000, 1000, conf⟩

/-! ## Helper lemmas -/

theorem jround_eq_of (x : ℝ) (z : ℤ) (h1 : (z : ℝ) ≤ x + 1/2)
    (h2 : x + 1/2 < (z : ℝ) + 1) : jround x = (z : ℝ) := by
  unfold jround
  norm_cast
  rw [Int.floor_eq_iff]
  exact ⟨h1, by exact_mod_cast h2⟩

theorem round10_eq_of (x : ℝ) (z : ℤ) (h1 : (z : ℝ) ≤ x * 10 + 1/2)
    (h2 : x * 10 + 1/2 < (z : ℝ) + 1) : round10 x = (z : ℝ) / 10 := by
  unfold round10
  rw [jround_eq_of (x * 10) z h1 h2]

theorem round10_le_add (x : ℝ) : round10 x ≤ x + 1/20 := by
  unfold round10 jround
  have := Int.floor_le (x * 10 + 1/2)
  have h10 : (0:ℝ) < 10 := by norm_num
  rw [div_le_iff h10]
  linarith

theorem sub_lt_round10 (x : ℝ) : x - 1/20 < round10 x := by
  unfold round10 jround
  have := Int.sub_one_lt_floor (x * 10 + 1/2)
  have h10 : (0:ℝ) < 10 := by norm_num
  rw [lt_div_iff h10]
  linarith

theorem jround_nonneg (x : ℝ) (h : 0 ≤ x) : 0 ≤ jround x := by
  unfold jround
  have : (0:ℤ) ≤ ⌊x + 1/2⌋ := Int.le_floor.mpr (by push_cast; linarith)
  exact_mod_cast this

theorem lookupR_cons (p : String × ℝ) (l : List (String × ℝ)) (k : String) :
    lookupR (p :: l) k = if p.1 == k then some p.2 else lookupR l k := by
  cases h : (p.1 == k) with
  | true => simp [lookupR, List.find?, h]
  | false => simp [lookupR, List.find?, h]

theorem lookupR_eq_of_mem {l : List (String × ℝ)} (hnd : (l.map Prod.fst).Nodup)
    {k : String} {v : ℝ} (hm : (k, v) ∈ l) : lookupR l k = some v := by
  induction l with
  | nil => cases hm
  | cons p l ih =>
    simp only [List.map_cons, List.nodup_cons] at hnd
    rcases List.mem_cons.mp hm with h | h
    · subst h; simp [lookupR_cons]
    · rw [lookupR_cons, if_neg, ih hnd.2 h]
      have : k ∈ l.map Prod.fst := List.mem_map_of_mem Prod.fst h
      simp only [beq_iff_eq]
      intro he
      exact hnd.1 (he ▸ this)

theorem lookupR_updateR_ne (l : List (String × ℝ)) (k' k : String) (v : ℝ)
    (h : k' ≠ k) : lookupR (updateR l k' v) k = lookupR l k := by
  induction l with
  | nil => simp [updateR, lookupR_cons, h]
  | cons p l ih =>
    unfold updateR
    by_cases hp : p.1 == k'
    · rw [if_pos hp, lookupR_cons, lookupR_cons, if_neg (by simpa using h)]
      have hpk : p.1 = k' := by simpa using hp
      rw [if_neg (by simp [hpk, h])]
    · rw [if_neg hp, lookupR_cons, lookupR_cons, ih]

/-! ## C7: ensembleAverage on zero and one result -/

/-- Claim C7: `ensembleAverage` throws `EmptyInputError` on zero results, and
given exactly one result returns its measurement and confidence maps unchanged
with `scansUsed = 1` and `outliersRemoved = 0`. -/
theorem claim7_ensemble_empty_and_single :
    ensembleAverage [] = .error (.thrown "No results to ensemble") ∧
    ∀ r : MeasurementResult,
      ensembleAverage [r] = .ok ⟨r.measurements, r.confidence, 1, 0⟩ :=
  ⟨rfl, fun _ => rfl⟩

/-! ## C4: degenerate geometry -/

/-- Claim C4 (amended part): a pairwise distance between coincident points is
`0` — both in the idealized real model and in the IEEE `FloatVal` model — and
in particular two missing landmarks (both replaced by the centered default
point) give distance `0`. -/
theorem claim4_distance_guards :
    (∀ p : ℝ × ℝ, distance2D p p = 0) ∧
    (∀ x y : ℝ, distance2DF (.fin x, .fin y) (.fin x, .fin y) = .fin 0) := by
  constructor
  · intro p
    simp [distance2D]
  · intro x y
    simp [distance2DF, fsub, fmul, fadd, fsqrt]

/-- Claim C4 (counterexample): the circumference computation does not guard
its division — with both extents zero it computes `0 / 0 = NaN` and returns
NaN rather than `0`. -/
theorem claim4_cex_ellipse_nan :
    ellipseCircumferenceF (.fin 0) (.fin 0) = .nan ∧ FloatVal.nan ≠ .fin 0 := by
  refine ⟨?_, by intro h; cases h⟩
  show fround10 _ = _
  norm_num [ellipseCircumferenceF, fsub, fmul, fadd, fdiv, fsqrt, fround10]

/-! ## C10: frame property of the anthropometric corrector -/

theorem correctionStep_lookup_ne (g : Gender) (H : ℝ)
    (acc : List (String × ℝ) × List Warning) (c : CheckSpec) (k : String)
    (h : c.key ≠ k) :
    lookupR (correctionStep g H acc c).1 k = lookupR acc.1 k := by
  unfold correctionStep
  cases hl : lookupR acc.1 c.key with
  | none => rfl
  | some m =>
    dsimp only
    split
    · rfl
    · split
      · exact lookupR_updateR_ne _ _ _ _ h
      · split
        · exact lookupR_updateR_ne _ _ _ _ h
        · rfl

theorem correctionFold_lookup_ne (g : Gender) (H : ℝ) (cs : List CheckSpec)
    (k : String) (hk : ∀ c ∈ cs, c.key ≠ k) :
    ∀ acc, lookupR ((cs.foldl (correctionStep g H) acc)).1 k = lookupR acc.1 k := by
  induction cs with
  | nil => intro acc; rfl
  | cons c cs ih =>
    intro acc
    rw [List.foldl_cons, ih (fun c' hc' => hk c' (List.mem_cons_of_mem c hc')),
      correctionStep_lookup_ne g H acc c k (hk c (List.mem_cons_self c cs))]

/-- Claim C10: the corrector never modifies the `height` entry, leaves every
key outside the nine checked keys unchanged, and returns the whole record and
warning list unchanged when the height entry is absent or nonpositive. -/
theorem claim10_corrector_frame (R : List (String × ℝ)) (g : Gender) (W : List Warning) :
    lookupR (applyAnthropometricCorrection R g W).1 "height" = lookupR R "height" ∧
    (∀ k : String, k ∉ checks.map CheckSpec.key →
      lookupR (applyAnthropometricCorrection R g W).1 k = lookupR R k) ∧
    ((∀ h0 : ℝ, lookupR R "height" = some h0 → h0 ≤ 0) →
      applyAnthropometricCorrection R g W = (R, W)) := by
  cases hlk : lookupR R "height" with
  | none =>
    have hred : applyAnthropometricCorrection R g W = (R, W) := by
      unfold applyAnthropometricCorrection
      rw [hlk]
    rw [hred]
    exact ⟨hlk, fun _ _ => rfl, fun _ => rfl⟩
  | some H =>
    by_cases hH : H ≤ 0
    · have hred : applyAnthropometricCorrection R g W = (R, W) := by
        unfold applyAnthropometricCorrection
        rw [hlk]
        dsimp only
        rw [if_pos hH]
      rw [hred]
      exact ⟨hlk, fun _ _ => rfl, fun _ => rfl⟩
    · have hred : applyAnthropometricCorrection R g W =
          checks.foldl (correctionStep g H) (R, W) := by
        unfold applyAnthropometricCorrection
        rw [hlk]
        dsimp only
        rw [if_neg hH]
      rw [hred]
      refine ⟨?_, ?_, ?_⟩
      · rw [correctionFold_lookup_ne g H checks "height"
          (by intro c hc; fin_cases hc <;> simp [checks]) (R, W)]
        exact hlk
      · intro k hk
        have hk' : ∀ c ∈ checks, c.key ≠ k := by
          intro c hc he
          exact hk (he ▸ List.mem_map_of_mem CheckSpec.key hc)
        rw [correctionFold_lookup_ne g H checks k hk' (R, W)]
      · intro hall
        exact absurd (hall H rfl) hH

/-- Witness for C10: a record without a height entry passes through the
corrector completely unchanged. -/
theorem claim10_witness :
    applyAnthropometricCorrection [("chest", 90)] Gender.male [] = ([("chest", 90)], []) :=
  (claim10_corrector_frame [("chest", 90)] Gender.male []).2.2
    (fun h0 hh => by simp [lookupR] at hh)

/-! ## C6: anthropometric correction policy -/

theorem correctionStep_none (g : Gender) (H : ℝ)
    (acc : List (String × ℝ) × List Warning) (c : CheckSpec)
    (h : lookupR acc.1 c.key = none) : correctionStep g H acc c = acc := by
  unfold correctionStep
  rw [h]

theorem correctionFold_skip (g : Gender) (H : ℝ) (cs : List CheckSpec) :
    ∀ acc, (∀ c ∈ cs, lookupR acc.1 c.key = none) →
      cs.foldl (correctionStep g H) acc = acc := by
  induction cs with
  | nil => intro acc _; rfl
  | cons c cs ih =>
    intro acc h
    rw [List.foldl_cons, correctionStep_none g H acc c (h c (List.mem_cons_self c cs))]
    exact ih acc (fun c' hc' => h c' (List.mem_cons_of_mem c hc'))

theorem lookupR_pair_none (H v : ℝ) (k0 k' : String)
    (h1 : ("height" == k') = false) (h2 : (k0 == k') = false) :
    lookupR [("height", H), (k0, v)] k' = none := by
  rw [lookupR_cons, if_neg (by simp [h1]), lookupR_cons, if_neg (by simp [h2])]
  rfl

theorem correctionStep_two_entry (g : Gender) (H m : ℝ) (c0 : CheckSpec)
    (W : List Warning) (hkey : ("height" == c0.key) = false) (hm : 0 < m) :
    correctionStep g H ([("height", H), (c0.key, m)], W) c0 =
      (let er := c0.ratioOf (ANTHROPOMETRIC_RATIOS g)
       let sd := c0.stdDevOf RATIO_STDDEV
       let z := |m / H - er| / sd
       if 3 < z then
         ([("height", H), (c0.key, round10 (m * 0.4 + H * er * 0.6))],
          W ++ [Warning.statisticalOutlier c0.key])
       else if 2 < z then
         ([("height", H), (c0.key, round10 (m * 0.8 + H * er * 0.2))], W)
       else ([("height", H), (c0.key, m)], W)) := by
  have hl : lookupR [("height", H), (c0.key, m)] c0.key = some m := by
    rw [lookupR_cons, if_neg (by simp [hkey]), lookupR_cons, if_pos (by simp)]
  have hu : ∀ v : ℝ, updateR [("height", H), (c0.key, m)] c0.key v =
      [("height", H), (c0.key, v)] := by
    intro v
    unfold updateR
    rw [if_neg (by simp [hkey])]
    unfold updateR
    rw [if_pos (by simp)]
  unfold correctionStep
  rw [hl]
  dsimp only
  rw [if_neg (not_le.mpr hm)]
  split_ifs <;> simp [hu]

theorem correctionFold_two_entry (g : Gender) (H m : ℝ) (W : List Warning)
    (cs : List CheckSpec) (c0 : CheckSpec) (hmem : c0 ∈ cs)
    (hdist : cs.Pairwise (fun a b => a.key ≠ b.key))
    (hkh : ∀ c ∈ cs, ("height" == c.key) = false) (hm : 0 < m) :
    cs.foldl (correctionStep g H) ([("height", H), (c0.key, m)], W) =
      (let er := c0.ratioOf (ANTHROPOMETRIC_RATIOS g)
       let sd := c0.stdDevOf RATIO_STDDEV
       let z := |m / H - er| / sd
       if 3 < z then
         ([("height", H), (c0.key, round10 (m * 0.4 + H * er * 0.6))],
          W ++ [Warning.statisticalOutlier c0.key])
       else if 2 < z then
         ([("height", H), (c0.key, round10 (m * 0.8 + H * er * 0.2))], W)
       else ([("height", H), (c0.key, m)], W)) := by
  induction cs generalizing W with
  | nil => cases hmem
  | cons c cs ih =>
    rw [List.pairwise_cons] at hdist
    rcases List.mem_cons.mp hmem with rfl | hmem'
    · rw [List.foldl_cons,
        correctionStep_two_entry g H m c0 W (hkh c0 (List.mem_cons_self c0 cs)) hm]
      have hskip : ∀ v : ℝ, ∀ c' ∈ cs, lookupR [("height", H), (c0.key, v)] c'.key = none := by
        intro v c' hc'
        refine lookupR_pair_none H v c0.key c'.key
          (hkh c' (List.mem_cons_of_mem c0 hc')) ?_
        simp only [beq_eq_false_iff_ne]
        exact hdist.1 c' hc'
      dsimp only
      split_ifs with h3 h2
      · exact correctionFold_skip g H cs _ (fun c' hc' => hskip _ c' hc')
      · exact correctionFold_skip g H cs _ (fun c' hc' => hskip _ c' hc')
      · exact correctionFold_skip g H cs _ (fun c' hc' => hskip _ c' hc')
    · have hck : (c0.key == c.key) = false := by
        simp only [beq_eq_false_iff_ne]
        exact (hdist.1 c0 hmem').symm
      rw [List.foldl_cons, correctionStep_none g H _ c
        (lookupR_pair_none H m c0.key c.key (hkh c (List.mem_cons_self c cs)) hck)]
      exact ih W hmem' hdist.2 (fun c' hc' => hkh c' (List.mem_cons_of_mem c hc'))

/-- Claim C6 (amended): for every checked key with a ratio-table entry,
positive measured value and positive height, the corrector computes
`z = |measured/height − expectedRatio| / stdDev` and returns the measured
value blended `0.4/0.6` toward the expectation (rounded to one decimal) with
an outlier warning naming the key when `z > 3`, blended `0.8/0.2` (rounded to
one decimal) with no warning when `2 < z ≤ 3`, and unchanged when `z ≤ 2`. -/
theorem claim6_correction_policy (g : Gender) (H m er sd : ℝ) (k : String)
    (hmem : (k, er, sd) ∈ ratioEntries g) (hH : 0 < H) (hm : 0 < m) :
    (3 < |m / H - er| / sd →
      applyAnthropometricCorrection [("height", H), (k, m)] g [] =
        ([("height", H), (k, round10 (m * 0.4 + H * er * 0.6))],
         [Warning.statisticalOutlier k])) ∧
    (2 < |m / H - er| / sd ∧ |m / H - er| / sd ≤ 3 →
      applyAnthropometricCorrection [("height", H), (k, m)] g [] =
        ([("height", H), (k, round10 (m * 0.8 + H * er * 0.2))], [])) ∧
    (|m / H - er| / sd ≤ 2 →
      applyAnthropometricCorrection [("height", H), (k, m)] g [] =
        ([("height", H), (k, m)], [])) := by
  rw [ratioEntries, List.mem_map] at hmem
  obtain ⟨c0, hc0, he⟩ := hmem
  rw [Prod.mk.injEq, Prod.mk.injEq] at he
  obtain ⟨hek, her, hesd⟩ := he
  subst hek; subst her; subst hesd
  have hred : applyAnthropometricCorrection [("height", H), (c0.key, m)] g [] =
      checks.foldl (correctionStep g H) ([("height", H), (c0.key, m)], []) := by
    unfold applyAnthropometricCorrection
    rw [show lookupR [("height", H), (c0.key, m)] "height" = some H by
      rw [lookupR_cons, if_pos (by simp)]]
    dsimp only
    rw [if_neg (not_le.mpr hH)]
  have hfold := correctionFold_two_entry g H m [] checks c0 hc0
    (by decide) (by decide) hm
  dsimp only at hfold
  refine ⟨fun hz => ?_, fun hz => ?_, fun hz => ?_⟩
  · rw [hred, hfold, if_pos hz, List.nil_append]
  · rw [hred, hfold, if_neg (by linarith [hz.2]), if_pos hz.1]
  · rw [hred, hfold, if_neg (by linarith), if_neg (by linarith)]

/-- Witness for C6: a male scan of height 170 cm with chest 130 cm has
`z ≈ 6.1 > 3`, so the heavy correction fires and an outlier warning naming
`chest` is emitted. -/
theorem claim6_witness :
    (("chest", (0.52 : ℝ), (0.04 : ℝ)) ∈ ratioEntries Gender.male ∧
      (0:ℝ) < 170 ∧ (0:ℝ) < 130 ∧ 3 < |130 / 170 - (0.52:ℝ)| / 0.04) ∧
    applyAnthropometricCorrection [("height", 170), ("chest", 130)] Gender.male [] =
      ([("height", 170), ("chest", round10 (130 * 0.4 + 170 * 0.52 * 0.6))],
       [Warning.statisticalOutlier "chest"]) := by
  have hmem : (("chest", (0.52 : ℝ), (0.04 : ℝ))) ∈ ratioEntries Gender.male := by
    simp [ratioEntries, checks, ANTHROPOMETRIC_RATIOS, RATIO_STDDEV]
  have hz : 3 < |130 / 170 - (0.52:ℝ)| / 0.04 := by
    rw [abs_of_pos (by norm_num)]
    norm_num
  exact ⟨⟨hmem, by norm_num, by norm_num, hz⟩,
    (claim6_correction_policy Gender.male 170 130 0.52 0.04 "chest" hmem
      (by norm_num) (by norm_num)).1 hz⟩

/-- Counterexample for C6 as literally stated: the corrector returns the
blend rounded to one decimal, not the exact blend.  For height 170 cm and
chest 120.01 cm (z ≈ 4.65 > 3) the exact blend is 101.044 but the corrector
returns 101.0. -/
theorem claim6_cex_rounding :
    applyAnthropometricCorrection [("height", 170), ("chest", 120.01)] Gender.male [] =
      ([("height", 170), ("chest", 101)], [Warning.statisticalOutlier "chest"]) ∧
    (101 : ℝ) ≠ 120.01 * 0.4 + 170 * 0.52 * 0.6 := by
  constructor
  · have hmem : (("chest", (0.52 : ℝ), (0.04 : ℝ))) ∈ ratioEntries Gender.male := by
      simp [ratioEntries, checks, ANTHROPOMETRIC_RATIOS, RATIO_STDDEV]
    rw [ratioEntries, List.mem_map] at hmem
    obtain ⟨c0, hc0, he⟩ := hmem
    rw [Prod.mk.injEq, Prod.mk.injEq] at he
    have hek : c0.key = "chest" := he.1
    have hred : applyAnthropometricCorrection [("height", 170), ("chest", 120.01)]
        Gender.male [] =
        checks.foldl (correctionStep Gender.male 170)
          ([("height", 170), ("chest", 120.01)], []) := by
      unfold applyAnthropometricCorrection
      rw [show lookupR [("height", (170:ℝ)), ("chest", 120.01)] "height" = some 170 by
        rw [lookupR_cons, if_pos (by simp)]]
      dsimp only
      rw [if_neg (by norm_num)]
    have hfold := correctionFold_two_entry Gender.male 170 120.01 [] checks c0 hc0
      (by decide) (by decide) (by norm_num)
    rw [hek] at hfold
    dsimp only at hfold
    rw [hred, hfold, if_pos ?hzgoal, List.nil_append]
    case hzgoal =>
      rw [he.2.1, he.2.2]
      show (3:ℝ) < |120.01 / 170 - (ANTHROPOMETRIC_RATIOS Gender.male).chestToHeight| /
        RATIO_STDDEV.chestToHeight
      show (3:ℝ) < |120.01 / 170 - 0.52| / 0.04
      rw [abs_of_pos (by norm_num)]
      norm_num
    rw [he.2.1]
    show ([("height", (170:ℝ)),
        ("chest", round10 (120.01 * 0.4 + 170 * (ANTHROPOMETRIC_RATIOS Gender.male).chestToHeight * 0.6))], _) = _
    show ([("height", (170:ℝ)), ("chest", round10 (120.01 * 0.4 + 170 * 0.52 * 0.6))], _) = _
    rw [round10_eq_of (120.01 * 0.4 + 170 * 0.52 * 0.6) 1010 (by norm_num) (by norm_num)]
    norm_num
  · norm_num

/-! ## Ensemble averaging lemmas -/

theorem confOf_ne_zero (r : MeasurementResult) (k : String) : confOf r k ≠ 0 := by
  unfold confOf
  cases lookupR r.confidence k with
  | none => norm_num
  | some c =>
    dsimp only
    split_ifs with h
    · norm_num
    · exact h

theorem keyValues_all_eq (r : MeasurementResult) (k : String) (v : ℝ)
    (hv : lookupR r.measurements k = some v) (h0 : 0 < v) :
    ∀ l : List MeasurementResult, (∀ s ∈ l, s = r) →
      keyValues l k = List.replicate l.length (v, confOf r k) := by
  intro l
  induction l with
  | nil => intro _; rfl
  | cons s l ih =>
    intro h
    have hs : s = r := h s (List.mem_cons_self s l)
    subst hs
    show List.filterMap _ (s :: l) = _
    rw [List.length_cons, List.replicate_succ, List.filterMap_cons]
    simp only [hv, if_pos h0]
    exact congrArg _ (ih (fun s' hs' => h s' (List.mem_cons_of_mem s hs')))

theorem insertV_self (e : ℝ × ℝ) (n : ℕ) :
    insertV e (List.replicate n e) = List.replicate (n + 1) e := by
  cases n with
  | zero => rfl
  | succ n =>
    rw [List.replicate_succ]
    show (if e.1 ≤ e.1 then e :: e :: List.replicate n e else
      e :: insertV e (List.replicate n e)) = _
    rw [if_pos le_rfl, List.replicate_succ, List.replicate_succ]

theorem sortV_replicate (e : ℝ × ℝ) (n : ℕ) :
    sortV (List.replicate n e) = List.replicate n e := by
  induction n with
  | zero => rfl
  | succ n ih =>
    rw [List.replicate_succ]
    show List.foldr insertV [] (e :: List.replicate n e) = _
    rw [List.foldr_cons]
    have : List.foldr insertV [] (List.replicate n e) = List.replicate n e := ih
    rw [this, insertV_self, List.replicate_succ]

theorem getD_pos_replicate (e d : ℝ × ℝ) (n i : ℕ) (h : i < n) :
    (List.replicate n e).getD i d = e := by
  induction n generalizing i with
  | zero => omega
  | succ n ih =>
    rw [List.replicate_succ]
    cases i with
    | zero => rfl
    | succ i =>
      rw [List.getD_cons_succ]
      exact ih i (by omega)

theorem filterInRange_of_all (lb ub : ℝ) (l : List (ℝ × ℝ))
    (h : ∀ e ∈ l, lb ≤ e.1 ∧ e.1 ≤ ub) : filterInRange lb ub l = l := by
  induction l with
  | nil => rfl
  | cons e l ih =>
    unfold filterInRange
    rw [if_pos (h e (List.mem_cons_self e l)),
      ih (fun e' he' => h e' (List.mem_cons_of_mem e he'))]

theorem insertV_nil (e : ℝ × ℝ) : insertV e [] = [e] := rfl

theorem insertV_cons (e f : ℝ × ℝ) (l : List (ℝ × ℝ)) :
    insertV e (f :: l) = if e.1 ≤ f.1 then e :: f :: l else f :: insertV e l := rfl

theorem filterInRange_cons (lb ub : ℝ) (e : ℝ × ℝ) (l : List (ℝ × ℝ)) :
    filterInRange lb ub (e :: l) =
      if lb ≤ e.1 ∧ e.1 ≤ ub then e :: filterInRange lb ub l
      else filterInRange lb ub l := rfl

theorem filterInRange_append (lb ub : ℝ) (l1 l2 : List (ℝ × ℝ)) :
    filterInRange lb ub (l1 ++ l2) =
      filterInRange lb ub l1 ++ filterInRange lb ub l2 := by
  induction l1 with
  | nil => rfl
  | cons e l ih =>
    rw [List.cons_append, filterInRange_cons, filterInRange_cons]
    split_ifs with h
    · rw [List.cons_append, ih]
    · exact ih

theorem sum_map_snd_replicate (n : ℕ) (e : ℝ × ℝ) :
    ((List.replicate n e).map (fun v => v.2)).sum = (n : ℝ) * e.2 := by
  rw [List.map_replicate, List.sum_replicate, nsmul_eq_mul]

theorem sum_map_mul_replicate (n : ℕ) (e : ℝ × ℝ) :
    ((List.replicate n e).map (fun v => v.1 * v.2)).sum = (n : ℝ) * (e.1 * e.2) := by
  rw [List.map_replicate, List.sum_replicate, nsmul_eq_mul]

theorem ensembleForKey_replicate (r : MeasurementResult) (k : String) (v : ℝ) (n : ℕ)
    (hn : 1 ≤ n) (hv : lookupR r.measurements k = some v) (h0 : 0 < v) :
    ∃ c : ℝ, ensembleForKey (List.replicate n r) k = some (round10 v, c, 0) := by
  have hW := confOf_ne_zero r k
  have hnn : ((n : ℕ) : ℝ) ≠ 0 := Nat.cast_ne_zero.mpr (by omega)
  have hkv : keyValues (List.replicate n r) k = List.replicate n (v, confOf r k) := by
    rw [keyValues_all_eq r k v hv h0 (List.replicate n r)
      (fun s hs => List.eq_of_mem_replicate hs), List.length_replicate]
  have hne : (List.replicate n ((v, confOf r k) : ℝ × ℝ)).isEmpty = false := by
    cases n with
    | zero => omega
    | succ n => rfl
  have hsort := sortV_replicate ((v, confOf r k) : ℝ × ℝ) n
  have hq1 : (List.replicate n ((v, confOf r k) : ℝ × ℝ)).getD (n / 4) (0, 0) =
      (v, confOf r k) := getD_pos_replicate _ _ n _ (by omega)
  have hq3 : (List.replicate n ((v, confOf r k) : ℝ × ℝ)).getD (3 * n / 4) (0, 0) =
      (v, confOf r k) := getD_pos_replicate _ _ n _ (by omega)
  have hfil : filterInRange v v (List.replicate n ((v, confOf r k) : ℝ × ℝ)) =
      List.replicate n (v, confOf r k) :=
    filterInRange_of_all _ _ _
      (fun e he => by rw [List.eq_of_mem_replicate he]; exact ⟨le_rfl, le_rfl⟩)
  have hdiv : (n : ℝ) * (v * confOf r k) / ((n : ℝ) * confOf r k) = v := by
    rw [mul_div_mul_left _ _ hnn, mul_div_cancel_right₀ _ hW]
  have hround : jround (v * 10) / 10 = round10 v := rfl
  simp only [ensembleForKey, hkv, hne, Bool.false_eq_true, if_false, hsort,
    List.length_replicate, hq1, hq3, sub_self, mul_zero, sub_zero, add_zero,
    hfil, sum_map_snd_replicate, sum_map_mul_replicate, hdiv, hround, Nat.sub_self]
  exact ⟨_, rfl⟩

theorem filterMap_keys_id (l : List (String × ℝ)) (F : String → Option (String × ℝ))
    (h : ∀ p ∈ l, F p.1 = some p) :
    (l.map (fun p => p.1)).filterMap F = l := by
  induction l with
  | nil => rfl
  | cons p l ih =>
    rw [List.map_cons, List.filterMap_cons]
    simp only [h p (List.mem_cons_self p l)]
    exact congrArg _ (ih (fun q hq => h q (List.mem_cons_of_mem p hq)))

theorem ensembleFold_spec (results : List MeasurementResult) (keys : List String)
    (m0 c0 : List (String × ℝ)) (o0 : ℕ) :
    keys.foldl (ensembleStep results) (m0, c0, o0) =
      (m0 ++ keys.filterMap (fun k => (ensembleForKey results k).map (fun t => (k, t.1))),
       c0 ++ keys.filterMap (fun k => (ensembleForKey results k).map (fun t => (k, t.2.1))),
       o0 + (keys.map
         (fun k => ((ensembleForKey results k).map (fun t => t.2.2)).getD 0)).sum) := by
  induction keys generalizing m0 c0 o0 with
  | nil => simp
  | cons k keys ih =>
    rw [List.foldl_cons]
    cases hk : ensembleForKey results k with
    | none =>
      rw [show ensembleStep results (m0, c0, o0) k = (m0, c0, o0) by
        unfold ensembleStep; rw [hk]]
      rw [ih]
      simp [hk]
    | some t =>
      rw [show ensembleStep results (m0, c0, o0) k =
          (m0 ++ [(k, t.1)], c0 ++ [(k, t.2.1)], o0 + t.2.2) by
        unfold ensembleStep; rw [hk]]
      rw [ih]
      simp only [hk, List.append_assoc, List.singleton_append, List.map_cons,
        List.sum_cons, Option.map_some', Option.getD_some, List.filterMap_cons]
      rw [Nat.add_assoc]

/-! ## C8: ensemble of identical results -/

/-- Claim C8 (amended): for `n ≥ 1` identical results whose measurement
values are positive and exact multiples of 0.1 (as every engine-produced
value is, since the engine rounds to one decimal), `ensembleAverage` returns
the same measurement map with `scansUsed = n` and `outliersRemoved = 0`. -/
theorem claim8_ensemble_identity (n : ℕ) (hn : 1 ≤ n) (r : MeasurementResult)
    (hnd : (r.measurements.map Prod.fst).Nodup)
    (hpos : ∀ p ∈ r.measurements, 0 < p.2 ∧ round10 p.2 = p.2) :
    (ensembleAverage (List.replicate n r)).map
      (fun e => (e.measurements, e.scansUsed, e.outliersRemoved)) =
    .ok (r.measurements, n, 0) := by
  rcases n with _ | (_ | m)
  · omega
  · rfl
  · have hshape : List.replicate (m + 2) r = r :: r :: List.replicate m r := by
      rw [List.replicate_succ, List.replicate_succ]
    have hek : ∀ p ∈ r.measurements,
        ∃ c, ensembleForKey (r :: r :: List.replicate m r) p.1 = some (p.2, c, 0) := by
      intro p hp
      have hlp : lookupR r.measurements p.1 = some p.2 := by
        have : (p.1, p.2) ∈ r.measurements := by
          rw [Prod.mk.eta]
          exact hp
        exact lookupR_eq_of_mem hnd this
      have := ensembleForKey_replicate r p.1 p.2 (m + 2) (by omega) hlp (hpos p hp).1
      rw [(hpos p hp).2] at this
      rwa [hshape] at this
    rw [hshape]
    show Except.map _ (ensembleAverage (r :: r :: List.replicate m r)) = _
    simp only [ensembleAverage]
    rw [ensembleFold_spec]
    simp only [List.nil_append, Nat.zero_add, Except.map]
    have hmeas : (r.measurements.map (fun p => p.1)).filterMap
        (fun k => (ensembleForKey (r :: r :: List.replicate m r) k).map
          (fun t => (k, t.1))) = r.measurements := by
      refine filterMap_keys_id _ _ ?_
      intro p hp
      obtain ⟨c, hc⟩ := hek p hp
      rw [hc]
      simp
    have hout : ((r.measurements.map (fun p => p.1)).map
        (fun k => ((ensembleForKey (r :: r :: List.replicate m r) k).map
          (fun t => t.2.2)).getD 0)).sum = 0 := by
      refine List.sum_eq_zero ?_
      intro y hy
      rw [List.map_map] at hy
      obtain ⟨p, hp, he⟩ := List.mem_map.mp hy
      obtain ⟨c, hc⟩ := hek p hp
      rw [← he]
      simp [hc]
    rw [hmeas, hout]
    simp [List.length_replicate]

/-- Counterexample for C8 as literally stated: two identical results whose
chest value is 0.05 cm come back with chest 0.1 cm — the weighted mean is
re-rounded to one decimal, so values that are not 0.1-multiples change. -/
theorem claim8_cex_rounding :
    (ensembleAverage [mkResult "chest" 0.05 50, mkResult "chest" 0.05 50]).map
      (fun e => lookupR e.measurements "chest") = .ok (some 0.1) ∧
    (0.1 : ℝ) ≠ 0.05 := by
  constructor
  · have hr005 : round10 0.05 = (0.1 : ℝ) := by
      rw [round10_eq_of 0.05 1 (by norm_num) (by norm_num)]
      norm_num
    have hek : ∃ c, ensembleForKey (mkResult "chest" 0.05 50 ::
        mkResult "chest" 0.05 50 :: []) "chest" = some (round10 0.05, c, 0) :=
      ensembleForKey_replicate (mkResult "chest" 0.05 50) "chest" 0.05 2
        (by omega) (by simp [mkResult, lookupR_cons]) (by norm_num)
    obtain ⟨c, hc⟩ := hek
    show Except.map _ (ensembleAverage
      (mkResult "chest" 0.05 50 :: mkResult "chest" 0.05 50 :: [])) = _
    simp only [ensembleAverage]
    rw [ensembleFold_spec]
    rw [show ((mkResult "chest" 0.05 50).measurements.map (fun p => p.1)) = ["chest"]
      from rfl]
    simp only [List.filterMap_cons, List.filterMap_nil, List.map_cons, List.map_nil]
    rw [hc]
    simp only [Option.map_some', Option.getD_some, List.nil_append, Except.map]
    rw [hr005]
    simp [lookupR_cons]
  · norm_num

/-! ## C2: outlier insensitivity of the ensemble -/

theorem foldr_insertV_rep_low (a w x u : ℝ) (j : ℕ) (hx : x < a) :
    List.foldr insertV [(x, u)] (List.replicate j ((a, w) : ℝ × ℝ)) =
      (x, u) :: List.replicate j (a, w) := by
  induction j with
  | zero => rfl
  | succ j ih =>
    rw [List.replicate_succ, List.foldr_cons, ih]
    show insertV (a, w) ((x, u) :: List.replicate j (a, w)) = _
    unfold insertV
    rw [if_neg (show ¬((a, w) : ℝ × ℝ).1 ≤ ((x, u) : ℝ × ℝ).1 from not_le.mpr hx)]
    rw [insertV_self, List.replicate_succ]

theorem sortV_rep_append_low (a w x u : ℝ) (j : ℕ) (hx : x < a) :
    sortV (List.replicate j (a, w) ++ [(x, u)]) = (x, u) :: List.replicate j (a, w) := by
  unfold sortV
  rw [List.foldr_append]
  rw [show List.foldr insertV [] [((x, u) : ℝ × ℝ)] = [(x, u)] from rfl]
  exact foldr_insertV_rep_low a w x u j hx

theorem keyValues_append (l1 l2 : List MeasurementResult) (k : String) :
    keyValues (l1 ++ l2) k = keyValues l1 k ++ keyValues l2 k := by
  unfold keyValues
  exact List.filterMap_append _ _ _

theorem ensembleForKey_low_outlier (k : String) (a x w : ℝ) (j : ℕ) (hj : 3 ≤ j)
    (hx0 : 0 < x) (hxa : x < a) :
    ∃ c, ensembleForKey (List.replicate j (mkResult k a w) ++ [mkResult k x w]) k =
      some (round10 a, c, 1) := by
  have hc0 : 0 < a := lt_trans hx0 hxa
  set W := confOf (mkResult k a w) k with hWdef
  have hWx : confOf (mkResult k x w) k = W := by
    rw [hWdef]
    simp [confOf, mkResult, lookupR_cons]
  have hW := confOf_ne_zero (mkResult k a w) k
  rw [← hWdef] at hW
  have hjj : ((j : ℕ) : ℝ) ≠ 0 := Nat.cast_ne_zero.mpr (by omega)
  have hkv : keyValues (List.replicate j (mkResult k a w) ++ [mkResult k x w]) k =
      List.replicate j (a, W) ++ [(x, W)] := by
    rw [keyValues_append]
    have h1 : keyValues (List.replicate j (mkResult k a w)) k = List.replicate j (a, W) := by
      have := keyValues_all_eq (mkResult k a w) k a
        (by simp [mkResult, lookupR_cons]) hc0
        (List.replicate j (mkResult k a w)) (fun s hs => List.eq_of_mem_replicate hs)
      rw [List.length_replicate] at this
      rw [this, hWdef]
    have h2 : keyValues [mkResult k x w] k = [(x, W)] := by
      simp only [keyValues, List.filterMap_cons, List.filterMap_nil,
        show lookupR (mkResult k x w).measurements k = some x by
          simp [mkResult, lookupR_cons], hx0, if_true, hWx]
    rw [h1, h2]
  have hne : (List.replicate j ((a, W) : ℝ × ℝ) ++ [(x, W)]).isEmpty = false := by
    simp
  have hsort := sortV_rep_append_low a W x W j hxa
  have hlen : ((x, W) :: List.replicate j (a, W)).length = j + 1 := by
    simp [List.length_replicate]
  have hq1 : ((x, W) :: List.replicate j (a, W)).getD ((j + 1) / 4) (0, 0) = (a, W) := by
    rw [show (j + 1) / 4 = ((j + 1) / 4 - 1) + 1 by omega, List.getD_cons_succ]
    exact getD_pos_replicate _ _ j _ (by omega)
  have hq3 : ((x, W) :: List.replicate j (a, W)).getD (3 * (j + 1) / 4) (0, 0) = (a, W) := by
    rw [show 3 * (j + 1) / 4 = (3 * (j + 1) / 4 - 1) + 1 by omega, List.getD_cons_succ]
    exact getD_pos_replicate _ _ j _ (by omega)
  have hfil : filterInRange a a (List.replicate j ((a, W) : ℝ × ℝ) ++ [(x, W)]) =
      List.replicate j (a, W) := by
    rw [filterInRange_append,
      filterInRange_of_all _ _ _
        (fun e he => by rw [List.eq_of_mem_replicate he]; exact ⟨le_rfl, le_rfl⟩),
      filterInRange_cons]
    rw [if_neg (by
      intro hcontra
      exact absurd hcontra.1 (by simpa using not_le.mpr hxa))]
    rw [show filterInRange a a ([] : List (ℝ × ℝ)) = [] from rfl, List.append_nil]
  have hlenv : (List.replicate j ((a, W) : ℝ × ℝ) ++ [(x, W)]).length = j + 1 := by
    simp [List.length_replicate]
  have hdiv : (j : ℝ) * (a * W) / ((j : ℝ) * W) = a := by
    rw [mul_div_mul_left _ _ hjj, mul_div_cancel_right₀ _ hW]
  have hround : jround (a * 10) / 10 = round10 a := rfl
  have hsub : j + 1 - j = 1 := by omega
  simp only [ensembleForKey, hkv, hne, Bool.false_eq_true, if_false, hsort, hlen,
    hq1, hq3, sub_self, mul_zero, sub_zero, add_zero, hfil, sum_map_snd_replicate,
    sum_map_mul_replicate, List.length_replicate, hlenv, hdiv, hround, hsub]
  exact ⟨_, rfl⟩

/-- Claim C2 (amended): with at least four scans, a single extreme LOW
outlier — a positive value strictly below the common value of all other
scans — is discarded by the IQR rule (`outliersRemoved = 1`) and the
ensemble value is the confidence-weighted mean of the remaining values
(rounded to one decimal, hence `round10 a` when all remaining values are
`a`).  A single extreme HIGH outlier among exactly four scans, by contrast,
is itself selected as Q3 and is never discarded (see the counterexample). -/
theorem claim2_low_outlier_removed (j : ℕ) (k : String) (a x w : ℝ)
    (hj : 3 ≤ j) (hx0 : 0 < x) (hxa : x < a) :
    (ensembleAverage (List.replicate j (mkResult k a w) ++ [mkResult k x w])).map
      (fun e => (e.measurements, e.scansUsed, e.outliersRemoved)) =
    .ok ([(k, round10 a)], j + 1, 1) := by
  obtain ⟨i, rfl⟩ : ∃ i, j = 3 + i := ⟨j - 3, by omega⟩
  obtain ⟨c, hc⟩ := ensembleForKey_low_outlier k a x w (3 + i) (by omega) hx0 hxa
  have hshape : List.replicate (3 + i) (mkResult k a w) ++ [mkResult k x w] =
      (mkResult k a w) :: (mkResult k a w) ::
        (List.replicate (1 + i) (mkResult k a w) ++ [mkResult k x w]) := by
    rw [show 3 + i = ((1 + i) + 1) + 1 by omega, List.replicate_succ, List.replicate_succ,
      List.cons_append, List.cons_append]
  rw [hshape] at hc ⊢
  show Except.map _ (ensembleAverage _) = _
  simp only [ensembleAverage]
  rw [ensembleFold_spec]
  rw [show ((mkResult k a w).measurements.map (fun p => p.1)) = [k] by simp [mkResult]]
  simp only [List.filterMap_cons, List.filterMap_nil, List.map_cons, List.map_nil]
  rw [hc]
  simp only [Option.map_some', Option.getD_some, List.nil_append, List.sum_cons,
    List.sum_nil, Except.map]
  rw [show ((mkResult k a w) :: (mkResult k a w) ::
      (List.replicate (1 + i) (mkResult k a w) ++ [mkResult k x w])).length = 3 + i + 1 by
    simp [List.length_append, List.length_replicate]; omega]
  rfl

/-- Witness for C2: four scans — three with chest 100 (confidence 80) and one
low outlier with chest 10 — produce ensemble chest 100, one outlier removed. -/
theorem claim2_witness :
    (ensembleAverage (List.replicate 3 (mkResult "chest" 100 80) ++
        [mkResult "chest" 10 80])).map
      (fun e => (e.measurements, e.scansUsed, e.outliersRemoved)) =
    .ok ([("chest", 100)], 4, 1) := by
  have := claim2_low_outlier_removed 3 "chest" 100 10 80 (by omega) (by norm_num)
    (by norm_num)
  rw [round10_eq_of 100 1000 (by norm_num) (by norm_num)] at this
  norm_num at this ⊢
  exact this

/-- Counterexample for C2: with exactly four results `[90, 90, 90, 1000]`
(confidence 50 each) the extreme high value 1000 is itself chosen as Q3 by
the index-based quantile (`sorted[⌊3·4/4⌋] = sorted[3]`), so the IQR band
reaches up to `1000 + 1.5·(1000−90)` and nothing is discarded: the ensemble
chest is 317.5 with `outliersRemoved = 0`, not the mean 90 of the other
three. -/
theorem claim2_cex_high_outlier_kept :
    (ensembleAverage [mkResult "chest" 90 50, mkResult "chest" 90 50,
        mkResult "chest" 90 50, mkResult "chest" 1000 50]).map
      (fun e => (lookupR e.measurements "chest", e.outliersRemoved)) =
    .ok (some 317.5, 0) ∧ (317.5 : ℝ) ≠ 90 := by
  constructor
  · have hkv : keyValues [mkResult "chest" 90 50, mkResult "chest" 90 50,
        mkResult "chest" 90 50, mkResult "chest" 1000 50] "chest" =
        [(90, 50), (90, 50), (90, 50), (1000, 50)] := by
      unfold keyValues
      simp only [List.filterMap_cons, List.filterMap_nil]
      norm_num [mkResult, lookupR_cons, confOf]
    have s2 : insertV ((90 : ℝ), (50 : ℝ)) [(1000, 50)] = [(90, 50), (1000, 50)] := by
      rw [insertV_cons, if_pos (by norm_num)]
    have s3 : insertV ((90 : ℝ), (50 : ℝ)) [(90, 50), (1000, 50)] =
        [(90, 50), (90, 50), (1000, 50)] := by
      rw [insertV_cons, if_pos (by norm_num)]
    have s4 : insertV ((90 : ℝ), (50 : ℝ)) [(90, 50), (90, 50), (1000, 50)] =
        [(90, 50), (90, 50), (90, 50), (1000, 50)] := by
      rw [insertV_cons, if_pos (by norm_num)]
    have hsort : sortV [((90 : ℝ), (50 : ℝ)), (90, 50), (90, 50), (1000, 50)] =
        [(90, 50), (90, 50), (90, 50), (1000, 50)] := by
      simp only [sortV, List.foldr_cons, List.foldr_nil, insertV_nil, s2, s3, s4]
    have hfil : filterInRange (90 - 1.5 * (1000 - 90)) (1000 + 1.5 * (1000 - 90))
        [((90 : ℝ), (50 : ℝ)), (90, 50), (90, 50), (1000, 50)] =
        [(90, 50), (90, 50), (90, 50), (1000, 50)] :=
      filterInRange_of_all _ _ _ (by
        intro e he
        simp only [List.mem_cons, List.not_mem_nil, or_false] at he
        rcases he with rfl | rfl | rfl | rfl <;> constructor <;> norm_num)
    have hefk : ∃ c, ensembleForKey [mkResult "chest" 90 50, mkResult "chest" 90 50,
        mkResult "chest" 90 50, mkResult "chest" 1000 50] "chest" =
        some (317.5, c, 0) := by
      have hlen : ([((90:ℝ), (50:ℝ)), (90, 50), (90, 50), (1000, 50)]).length = 4 := rfl
      have hq1 : ([((90:ℝ), (50:ℝ)), (90, 50), (90, 50), (1000, 50)]).getD
        ((4 : ℕ) / 4) ((0 : ℝ), (0 : ℝ)) = (90, 50) := rfl
      have hq3 : ([((90:ℝ), (50:ℝ)), (90, 50), (90, 50), (1000, 50)]).getD
        (3 * 4 / 4) ((0 : ℝ), (0 : ℝ)) = (1000, 50) := rfl
      have hmeans : jround (((90:ℝ) * 50 + (90 * 50 + (90 * 50 + (1000 * 50 + 0)))) /
          ((50:ℝ) + (50 + (50 + (50 + 0)))) * 10) / 10 = 317.5 := by
        norm_num [jround]
      have hsub : (4 : ℕ) - 4 = 0 := rfl
      simp only [ensembleForKey, hkv, hsort, hlen, hq1, hq3, hfil, List.map_cons,
        List.map_nil, List.sum_cons, List.sum_nil, hmeans, hsub]
      exact ⟨_, rfl⟩
    obtain ⟨c, hc⟩ := hefk
    show Except.map _ (ensembleAverage _) = _
    simp only [ensembleAverage]
    rw [ensembleFold_spec]
    rw [show ((mkResult "chest" 90 50).measurements.map (fun p => p.1)) = ["chest"] by
      simp [mkResult]]
    simp only [List.filterMap_cons, List.filterMap_nil, List.map_cons, List.map_nil]
    rw [hc]
    simp [lookupR_cons, Except.map]
  · norm_num

/-! ## Pipeline plumbing lemmas -/

theorem getTopOfHead_ok (lm : List Landmark) (h : lm ≠ []) :
    ∃ p, getTopOfHead lm = .ok p := by
  unfold getTopOfHead
  cases hf : lm.find? (fun l => l.name == "nose") with
  | some nose => exact ⟨_, rfl⟩
  | none =>
    cases lm with
    | nil => exact absurd rfl h
    | cons l0 tl => exact ⟨_, rfl⟩

theorem estimatedScale_ok (captures : List CaptureAngle) (w : List Warning)
    (h : ∀ c ∈ captures, c.landmarks ≠ []) :
    ∃ s, estimatedScale captures w = .ok s := by
  unfold estimatedScale
  cases hf : captures.find? (fun c => c.type == CaptureType.front) with
  | none => exact ⟨_, rfl⟩
  | some fc =>
    obtain ⟨p, hp⟩ := getTopOfHead_ok fc.landmarks (h fc (List.mem_of_find?_eq_some hf))
    exact ⟨(170 / (|(getBottomOfFeet fc.landmarks).2 - p.2| * fc.imageHeight),
      w ++ [Warning.estimatedCalibration]), by simp [hp, Bind.bind, Except.bind]⟩

theorem computeScaleFactor_ok (captures : List CaptureAngle)
    (cal : Option CalibrationReference) (kh : Option ℝ) (w : List Warning)
    (h : ∀ c ∈ captures, c.landmarks ≠ []) :
    ∃ s, computeScaleFactor captures cal kh w = .ok s := by
  unfold computeScaleFactor
  cases cal with
  | some c => exact ⟨_, rfl⟩
  | none =>
    cases kh with
    | none => exact estimatedScale_ok captures w h
    | some hv =>
      dsimp only
      split_ifs with h0
      · exact estimatedScale_ok captures w h
      · cases hf : captures.find? (fun c => c.type == CaptureType.front) with
        | none => exact estimatedScale_ok captures w h
        | some fc =>
          obtain ⟨p, hp⟩ := getTopOfHead_ok fc.landmarks
            (h fc (List.mem_of_find?_eq_some hf))
          by_cases hhp : 0 < |(getBottomOfFeet fc.landmarks).2 - p.2| * fc.imageHeight
          · exact ⟨(hv / (|(getBottomOfFeet fc.landmarks).2 - p.2| * fc.imageHeight), w),
              by simp [hp, Bind.bind, Except.bind, hhp]⟩
          · obtain ⟨s, hs⟩ := estimatedScale_ok captures w h
            exact ⟨s, by simp [hp, Bind.bind, Except.bind, hhp, hs]⟩

/-! ## C3: the front capture requirement -/

/-- Claim C3: over data-model-conformant captures (each carrying the 33-point
skeleton), the pipeline throws `Front-view capture is required` exactly when
no front capture is supplied, and returns a `MeasurementResult` without
raising whenever one is present.  (Without the 33-landmark invariant a front
capture with an empty landmark list would instead hit a `TypeError` inside
head-top estimation, before the front check.) -/
theorem claim3_front_required (captures : List CaptureAngle)
    (cal : Option CalibrationReference) (kh : Option ℝ) (g : Gender) (t1 t2 : ℝ)
    (h33 : ∀ c ∈ captures, c.landmarks.length = 33) :
    ((calculateFromMultiAngle captures cal kh g t1 t2).isOk = true ↔
      ∃ c ∈ captures, c.type = CaptureType.front) ∧
    (calculateFromMultiAngle captures cal kh g t1 t2 =
        .error (.thrown "Front-view capture is required") ↔
      ∀ c ∈ captures, c.type ≠ CaptureType.front) := by
  have hne : ∀ c ∈ captures, c.landmarks ≠ [] := by
    intro c hc he
    have := h33 c hc
    rw [he] at this
    simp at this
  obtain ⟨s, hs⟩ := computeScaleFactor_ok captures cal kh [] hne
  cases hf : captures.find? (fun c => c.type == CaptureType.front) with
  | none =>
    have hall : ∀ c ∈ captures, c.type ≠ CaptureType.front := by
      intro c hc
      have := List.find?_eq_none.mp hf c hc
      simpa using this
    constructor
    · apply iff_of_false
      · simp [calculateFromMultiAngle, hs, hf, Bind.bind, Except.bind, Except.isOk, Except.toBool]
      · rintro ⟨c, hc, ht⟩
        exact hall c hc ht
    · apply iff_of_true
      · simp [calculateFromMultiAngle, hs, hf, Bind.bind, Except.bind]
      · exact hall
  | some fc =>
    have hfc : fc ∈ captures := List.mem_of_find?_eq_some hf
    have hft : fc.type = CaptureType.front := by
      have := List.find?_some hf
      simpa using this
    constructor
    · apply iff_of_true
      · simp [calculateFromMultiAngle, hs, hf, Bind.bind, Except.bind, Except.isOk, Except.toBool]
      · exact ⟨fc, hfc, hft⟩
    · apply iff_of_false
      · simp [calculateFromMultiAngle, hs, hf, Bind.bind, Except.bind]
      · intro hall
        exact hall fc hfc hft

/-- Witness for C3: a single conformant front capture makes the pipeline
return successfully. -/
theorem claim3_witness :
    (calculateFromMultiAngle [frontCapture33 0.9] none none Gender.other 0 0).isOk = true := by
  have h := (claim3_front_required [frontCapture33 0.9] none none Gender.other 0 0
    (by intro c hc; simp only [List.mem_singleton] at hc; subst hc
        simp [frontCapture33])).1
  exact h.mpr ⟨frontCapture33 0.9, by simp, rfl⟩

/-! ## C1: overall accuracy bounds -/

theorem calcOverall_conf_bounds (captures : List CaptureAngle)
    (X : List (String × ℝ)) (g : Gender) (hsv hcb : Bool)
    (hcap : captures ≠ [])
    (hsum : 0 < ((calculateConfidenceScores captures X g hsv hcb).map
      (fun p => p.2)).sum) :
    0 ≤ calculateOverallAccuracy (calculateConfidenceScores captures X g hsv hcb) captures ∧
    calculateOverallAccuracy (calculateConfidenceScores captures X g hsv hcb) captures ≤ 100 := by
  have hvne : ((calculateConfidenceScores captures X g hsv hcb).map
      (fun p => p.2)).isEmpty = false := rfl
  have hws : 0 ≤ (((calculateConfidenceScores captures X g hsv hcb).map
      (fun p => p.2)).map (fun c => c * c)).sum := by
    refine List.sum_nonneg ?_
    intro x hx
    obtain ⟨c, _, rfl⟩ := List.mem_map.mp hx
    exact mul_self_nonneg c
  have hlen : (1 : ℝ) ≤ (captures.length : ℝ) := by
    have := List.length_pos.mpr hcap
    exact_mod_cast this
  have hbonus : 0 ≤ min (5 : ℝ) (((captures.length : ℝ) - 1) * 3) :=
    le_min (by norm_num) (by linarith)
  have havg : 0 ≤ (((calculateConfidenceScores captures X g hsv hcb).map
        (fun p => p.2)).map (fun c => c * c)).sum /
      ((calculateConfidenceScores captures X g hsv hcb).map (fun p => p.2)).sum :=
    div_nonneg hws (le_of_lt hsum)
  unfold calculateOverallAccuracy
  rw [if_neg (by simp [hvne])]
  constructor
  · exact le_min (by norm_num) (jround_nonneg _ (by linarith))
  · exact le_trans (min_le_left _ _) (by norm_num)

/-- Claim C1 (amended): on a capture list with a front capture whose landmark
lists are nonempty, and whose per-measurement confidence values have positive
sum (true whenever the captures' detection confidences are not degenerate,
e.g. base confidence at least 5), the pipeline succeeds and its
`overallAccuracy` lies in `[0, 100]` (indeed at most 98).  Without the
positive-sum condition the accuracy can be negative: see the counterexample,
where a zero-confidence front capture yields `overallAccuracy = −9`. -/
theorem claim1_overall_accuracy_bounds (captures : List CaptureAngle)
    (cal : Option CalibrationReference) (kh : Option ℝ) (g : Gender) (t1 t2 : ℝ)
    (hfront : ∃ c ∈ captures, c.type = CaptureType.front)
    (hlm : ∀ c ∈ captures, c.landmarks ≠ [])
    (hsum : 0 < ((calculateConfidenceScores captures [] g
        ((captures.find? (fun c => c.type == CaptureType.side)).isSome)
        (cal.isSome || numTruthy kh)).map (fun p => p.2)).sum) :
    ∃ a : ℝ, (calculateFromMultiAngle captures cal kh g t1 t2).map
        (fun r => r.overallAccuracy) = .ok a ∧ 0 ≤ a ∧ a ≤ 100 := by
  obtain ⟨s, hs⟩ := computeScaleFactor_ok captures cal kh [] hlm
  cases hf : captures.find? (fun c => c.type == CaptureType.front) with
  | none =>
    obtain ⟨c, hc, ht⟩ := hfront
    have := List.find?_eq_none.mp hf c hc
    simp [ht] at this
  | some fc =>
    have hcap : captures ≠ [] := List.ne_nil_of_mem (List.mem_of_find?_eq_some hf)
    simp only [calculateFromMultiAngle, hs, hf, Bind.bind, Except.bind, Except.map]
    refine ⟨_, rfl, ?_⟩
    exact calcOverall_conf_bounds captures _ g _ _ hcap hsum

/-- Witness for C1: a conformant front capture with detection confidence 0.9
(base confidence 63) satisfies the positive-sum condition and the returned
overall accuracy is within bounds. -/
theorem claim1_witness :
    ∃ a : ℝ, (calculateFromMultiAngle [frontCapture33 0.9] none none Gender.other 0 0).map
        (fun r => r.overallAccuracy) = .ok a ∧ 0 ≤ a ∧ a ≤ 100 := by
  refine claim1_overall_accuracy_bounds [frontCapture33 0.9] none none Gender.other 0 0
    ⟨frontCapture33 0.9, by simp, rfl⟩
    (by intro c hc; simp only [List.mem_singleton] at hc; subst hc; simp [frontCapture33])
    ?_
  have hbase : getBaseConfidence [frontCapture33 0.9] = 63 := by
    norm_num [getBaseConfidence, frontCapture33, jround]
  have hside : (([frontCapture33 0.9].find?
      (fun c => c.type == CaptureType.side)).isSome) = false := rfl
  have hcal : ((none : Option CalibrationReference).isSome || numTruthy none) = false := rfl
  rw [hside, hcal]
  simp only [calculateConfidenceScores]
  rw [hbase]
  norm_num [min_def]

/-- Counterexample for C1: a data-model-conformant front capture whose
detection confidence is 0 gives base confidence 0, per-measurement
confidences `[5, 0, −3, −5, −5, −5, −5, −8, −10, −12]`, and the
confidence-squared weighted mean `442 / (−48)` rounds to `−9`: the returned
`overallAccuracy` is `−9 ∉ [0, 100]`. -/
theorem claim1_cex_negative_accuracy :
    (calculateFromMultiAngle [frontCapture33 0] none none Gender.other 0 0).map
      (fun r => r.overallAccuracy) = .ok (-9) ∧ ((-9 : ℝ) < 0) := by
  refine ⟨?_, by norm_num⟩
  obtain ⟨s, hs⟩ := computeScaleFactor_ok [frontCapture33 0] none none []
    (by intro c hc; simp only [List.mem_singleton] at hc; subst hc; simp [frontCapture33])
  have hf : [frontCapture33 0].find? (fun c => c.type == CaptureType.front) =
      some (frontCapture33 0) := rfl
  have hfs : [frontCapture33 0].find? (fun c => c.type == CaptureType.side) = none := rfl
  have hacc : ∀ (X : List (String × ℝ)) (g' : Gender),
      calculateOverallAccuracy (calculateConfidenceScores [frontCapture33 0] X g'
        false false) [frontCapture33 0] = -9 := by
    intro X g'
    have hbase : getBaseConfidence [frontCapture33 0] = 0 := by
      norm_num [getBaseConfidence, frontCapture33, jround]
    norm_num [calculateOverallAccuracy, calculateConfidenceScores, hbase, jround]
  simp only [calculateFromMultiAngle, hs, hf, hfs, Bind.bind, Except.bind, Except.map,
    Option.isSome_none, Option.isSome_some, numTruthy, Bool.or_false, Bool.or_true]
  exact congrArg Except.ok (hacc _ _)

/-! ## C9: determinism up to the wall clock -/

/-- Claim C9 (amended): the pipeline is a pure function of its inputs and of
the two wall-clock samples; two runs on identical captures, calibration, known
height and gender agree on every field except `metadata.processingTimeMs`
(i.e. they are equal after `stripTime`), whatever the clock reads were. -/
theorem claim9_deterministic_up_to_clock (captures : List CaptureAngle)
    (calibration : Option CalibrationReference) (knownHeight : Option ℝ)
    (gender : Gender) (t1 t2 t1' t2' : ℝ) :
    (calculateFromMultiAngle captures calibration knownHeight gender t1 t2).map stripTime =
    (calculateFromMultiAngle captures calibration knownHeight gender t1' t2').map stripTime := by
  cases hcs : computeScaleFactor captures calibration knownHeight [] with
  | error e => simp [calculateFromMultiAngle, hcs, Bind.bind, Except.bind]
  | ok s =>
    cases hf : captures.find? (fun c => c.type == CaptureType.front) with
    | none => simp [calculateFromMultiAngle, hcs, hf, Bind.bind, Except.bind]
    | some fc =>
      simp [calculateFromMultiAngle, hcs, hf, Bind.bind, Except.bind, Except.map, stripTime]

/-- Counterexample for C9 as literally stated: the same capture, calibration,
known height and gender, invoked at two different wall-clock moments, return
results that differ (in `metadata.processingTimeMs`: 5 vs 0). -/
theorem claim9_cex_processing_time :
    calculateFromMultiAngle [frontCapture33 0.9] none none Gender.other 0 5 ≠
    calculateFromMultiAngle [frontCapture33 0.9] none none Gender.other 0 0 := by
  intro h
  have h2 := congrArg
    (fun e => e.map (fun r : MeasurementResult => r.metadata.processingTimeMs)) h
  obtain ⟨s, hs⟩ := computeScaleFactor_ok [frontCapture33 0.9] none none []
    (by intro c hc; simp only [List.mem_singleton] at hc; subst hc; simp [frontCapture33])
  have hf : [frontCapture33 0.9].find? (fun c => c.type == CaptureType.front) =
      some (frontCapture33 0.9) := rfl
  simp only [calculateFromMultiAngle, hs, hf, Bind.bind, Except.bind, Except.map] at h2
  norm_num at h2

/-! ## C5: bounds of the Ramanujan circumference -/

theorem ramanujan_ratio_bounds (h : ℝ) (h0 : 0 ≤ h) (h1 : h ≤ 1) :
    0 ≤ 3 * h / (10 + Real.sqrt (4 - 3 * h)) ∧
    3 * h / (10 + Real.sqrt (4 - 3 * h)) ≤ 3 / 11 := by
  have hs1 : 1 ≤ Real.sqrt (4 - 3 * h) := by
    rw [show (1 : ℝ) = Real.sqrt 1 by rw [Real.sqrt_one]]
    exact Real.sqrt_le_sqrt (by linarith)
  have hsd : (0 : ℝ) < 10 + Real.sqrt (4 - 3 * h) := by linarith
  constructor
  · exact div_nonneg (by linarith) (le_of_lt hsd)
  · rw [div_le_div_iff hsd (by norm_num)]
    nlinarith [hs1]

/-- Claim C5 (amended): for positive semi-axes whose larger full extent is at
least 1 cm, the computed (0.1-rounded) circumference exceeds `1.5 × max(frontWidth,
sideDepth)` — not the claimed `2 ×`, which fails for highly eccentric
cross-sections (see the counterexample) — and is less than
`π × (frontWidth + sideDepth)`. -/
theorem claim5_circumference_bounds (a b : ℝ) (ha : 0 < a) (hb : 0 < b)
    (hmax : 1 ≤ max (2 * a) (2 * b)) :
    3 / 2 * max (2 * a) (2 * b) < ellipseCircumference a b ∧
    ellipseCircumference a b < Real.pi * (2 * a + 2 * b) := by
  have hab : 0 < a + b := by linarith
  have habs : 0 < (a + b) * (a + b) := by positivity
  have hEC : ellipseCircumference a b =
      round10 (Real.pi * (a + b) *
        (1 + 3 * ((a - b) * (a - b) / ((a + b) * (a + b))) /
          (10 + Real.sqrt (4 - 3 * ((a - b) * (a - b) / ((a + b) * (a + b))))))) := rfl
  rw [hEC]
  set h : ℝ := (a - b) * (a - b) / ((a + b) * (a + b)) with hh
  have h0 : 0 ≤ h := div_nonneg (mul_self_nonneg _) (le_of_lt habs)
  have h1 : h ≤ 1 := by
    rw [hh, div_le_one habs]
    nlinarith
  obtain ⟨hr0, hr1⟩ := ramanujan_ratio_bounds h h0 h1
  set C := Real.pi * (a + b) * (1 + 3 * h / (10 + Real.sqrt (4 - 3 * h))) with hC
  have hpi1 : (3.141592 : ℝ) < Real.pi := Real.pi_gt_3141592
  have hm : (1 : ℝ) / 2 ≤ max a b := by
    rcases le_total a b with hle | hle
    · rw [max_eq_right hle]
      rw [max_eq_right (by linarith : 2 * a ≤ 2 * b)] at hmax
      linarith
    · rw [max_eq_left hle]
      rw [max_eq_left (by linarith : 2 * b ≤ 2 * a)] at hmax
      linarith
  have habm : max a b ≤ a + b := max_le (by linarith) (by linarith)
  have hCl : Real.pi * (a + b) ≤ C := by
    rw [hC]
    nlinarith [mul_nonneg (mul_nonneg Real.pi_pos.le hab.le) hr0]
  have hCu : C ≤ Real.pi * (a + b) * (14 / 11) := by
    rw [hC]
    nlinarith [mul_le_mul_of_nonneg_left hr1 (mul_nonneg Real.pi_pos.le hab.le)]
  have hmax2 : max (2 * a) (2 * b) = 2 * max a b := by
    rcases le_total a b with hle | hle
    · rw [max_eq_right hle, max_eq_right (by linarith : 2 * a ≤ 2 * b)]
    · rw [max_eq_left hle, max_eq_left (by linarith : 2 * b ≤ 2 * a)]
  constructor
  · rw [hmax2]
    have hlow := sub_lt_round10 C
    have hπm : Real.pi * max a b ≤ Real.pi * (a + b) := by nlinarith [Real.pi_pos]
    nlinarith [hlow, hCl, hπm, hm,
      mul_le_mul_of_nonneg_right (le_of_lt hpi1) (by linarith : (0 : ℝ) ≤ max a b)]
  · have hup := round10_le_add C
    have hπab : (3.141592 : ℝ) * (1 / 2) ≤ Real.pi * (a + b) := by
      have hhalf : (1 : ℝ) / 2 ≤ a + b := le_trans hm habm
      nlinarith [hpi1]
    nlinarith [hup, hCu, hπab]

/-- Witness for C5 (amended): for the circular cross-section `a = b = 1` the
hypotheses hold and the rounded circumference (6.3) lies strictly between
`1.5 × 2 = 3` and `4π`. -/
theorem claim5_witness :
    (0 : ℝ) < 1 ∧ (1 : ℝ) ≤ max (2 * 1) (2 * 1) ∧
    (3 / 2 * max (2 * (1 : ℝ)) (2 * 1) < ellipseCircumference 1 1 ∧
      ellipseCircumference 1 1 < Real.pi * (2 * 1 + 2 * 1)) :=
  ⟨by norm_num, by norm_num,
    claim5_circumference_bounds 1 1 (by norm_num) (by norm_num) (by norm_num)⟩

/-- Counterexample for C5 as stated: for the highly eccentric cross-section
`a = 100`, `b = 1/100` the Ramanujan value is ≈ 399.84 < 400 = 2 × max, so the
computed circumference does not exceed `2 × max(frontWidth, sideDepth)`. -/
theorem claim5_cex_eccentric :
    ellipseCircumference 100 (1 / 100) < 2 * max (2 * 100) (2 * (1 / 100)) := by
  have hmaxv : max (2 * (100 : ℝ)) (2 * (1 / 100)) = 200 := by
    rw [max_eq_left (by norm_num)]
    norm_num
  rw [hmaxv, show (2 : ℝ) * 200 = 400 by norm_num]
  have hEC : ellipseCircumference 100 (1 / 100) =
      round10 (Real.pi * (100 + 1 / 100) *
        (1 + 3 * (((100 : ℝ) - 1 / 100) * (100 - 1 / 100) /
            ((100 + 1 / 100) * (100 + 1 / 100))) /
          (10 + Real.sqrt (4 - 3 * (((100 : ℝ) - 1 / 100) * (100 - 1 / 100) /
            ((100 + 1 / 100) * (100 + 1 / 100))))))) := rfl
  rw [hEC]
  set h : ℝ := ((100 : ℝ) - 1 / 100) * (100 - 1 / 100) /
    ((100 + 1 / 100) * (100 + 1 / 100)) with hh
  have hhval : h = 99980001 / 100020001 := by
    rw [hh]
    norm_num
  have hs1 : 1 ≤ Real.sqrt (4 - 3 * h) := by
    rw [show (1 : ℝ) = Real.sqrt 1 by rw [Real.sqrt_one]]
    apply Real.sqrt_le_sqrt
    rw [hhval]
    norm_num
  have hsd : (0 : ℝ) < 10 + Real.sqrt (4 - 3 * h) := by linarith
  have h3 : (0 : ℝ) ≤ 3 * h := by
    rw [hhval]
    norm_num
  have hr : 3 * h / (10 + Real.sqrt (4 - 3 * h)) ≤ 3 * h / 11 := by
    rw [div_le_div_iff hsd (by norm_num)]
    nlinarith [hs1]
  have h311 : 3 * h / 11 = (299940003 : ℝ) / 1100220011 := by
    rw [hhval]
    norm_num
  have hF : (1 : ℝ) + 3 * h / (10 + Real.sqrt (4 - 3 * h)) ≤
      1 + 299940003 / 1100220011 := by
    rw [← h311]
    linarith [hr]
  have hFpos : (0 : ℝ) < 1 + 3 * h / (10 + Real.sqrt (4 - 3 * h)) := by
    have := div_nonneg h3 (le_of_lt hsd)
    linarith
  have hCbound : Real.pi * (100 + 1 / 100) *
      (1 + 3 * h / (10 + Real.sqrt (4 - 3 * h))) ≤
      3.141593 * ((100 : ℝ) + 1 / 100) * (1 + 299940003 / 1100220011) := by
    nlinarith [Real.pi_pos, Real.pi_lt_3141593, hF, hFpos,
      mul_le_mul_of_nonneg_right (le_of_lt Real.pi_lt_3141593)
        (le_of_lt (mul_pos (by norm_num : (0 : ℝ) < 100 + 1 / 100) hFpos)),
      mul_le_mul_of_nonneg_left hF
        (by norm_num : (0 : ℝ) ≤ 3.141593 * (100 + 1 / 100))]
  have hnum : (3.141593 : ℝ) * (100 + 1 / 100) * (1 + 299940003 / 1100220011) <
      399.9 := by norm_num
  have hround := round10_le_add (Real.pi * (100 + 1 / 100) *
    (1 + 3 * h / (10 + Real.sqrt (4 - 3 * h))))
  linarith [hCbound, hnum, hround]

theorem claim8_witness :
    (ensembleAverage (List.replicate 3 (mkResult "chest" (905/10) 50))).map
      (fun e => (e.measurements, e.scansUsed, e.outliersRemoved)) =
    .ok ((mkResult "chest" (905/10) 50).measurements, 3, 0) :=
  claim8_ensemble_identity 3 (by norm_num) (mkResult "chest" (905/10) 50)
    (by simp [mkResult])
    (by
      intro p hp
      simp only [mkResult, List.mem_singleton] at hp
      subst hp
      constructor
      · norm_num
      · rw [round10_eq_of _ 905 (by norm_num) (by norm_num)]
        norm_num)
